import Mathlib

/-!
Verification of the cfncluster configuration marshalling engine
(`src/cli/pcluster/config/param_types.py` and
`src/cli/pcluster/config/mapping.py`) against its natural-language
specification.

The development shallowly embeds the Python code: parameter values are an
inductive `PValue` mirroring the Python values the engine manipulates,
fatal `error(...)` calls (which print and `sys.exit(1)`) are modelled as
`Except.error`, and the per-class `__init__` / `to_file` / `to_cfn`
methods become Lean functions dispatching on a parameter-type tag, one
branch per Python subclass.
-/

namespace CfnCluster

/-- Decimal number `m / 10 ^ s`, the representation of Python floats in
this development. Every float the engine manipulates comes from parsing
decimal text or from a decimal schema default, and no arithmetic beyond
equality, truncation and printing is performed on them, so exact
decimals model them faithfully. -/
structure Dec where
  m : Int
  s : Nat
  deriving DecidableEq, Repr

/-- Numeric equality of decimals (cross-multiplied). -/
def Dec.eq (a b : Dec) : Bool :=
  a.m * (10 : Int) ^ b.s = b.m * (10 : Int) ^ a.s

/-- Python runtime value, covering every value shape the engine's
parameters hold: `None`, `str`, `int`, `float` (modelled as an exact
decimal), `bool`, a list of strings (`CommaSeparatedParam`), and a
JSON/YAML mapping (`JsonParam`; only string-to-string maps are modelled
since no claim decodes structured JSON text). -/
inductive PValue where
  | none : PValue
  | str (s : String) : PValue
  | int (n : Int) : PValue
  | float (d : Dec) : PValue
  | bool (b : Bool) : PValue
  | list (xs : List String) : PValue
  | dict (entries : List (String × String)) : PValue
  deriving DecidableEq, Repr

/-- Python truthiness (`if value:`): `None`, `""`, `0`, `0.0`, `False`,
`[]` and `{}` are falsy, everything else truthy. -/
def pyTruthy : PValue → Bool
  | .none => false
  | .str s => s ≠ ""
  | .int n => n ≠ 0
  | .float d => d.m ≠ 0
  | .bool b => b
  | .list xs => xs ≠ []
  | .dict d => d ≠ []

/-- Python `==` between the values above. Python compares `bool`,
`int` and `float` numerically (`False == 0`, `1 == 1.0`); values of
unrelated types are never equal; lists compare pointwise. -/
def pyEq : PValue → PValue → Bool
  | .none, .none => true
  | .str a, .str b => a = b
  | .int a, .int b => a = b
  | .float a, .float b => a.eq b
  | .bool a, .bool b => a = b
  | .int a, .bool b => a = (if b then 1 else 0)
  | .bool a, .int b => (if a then (1 : Int) else 0) = b
  | .float a, .int b => a.eq ⟨b, 0⟩
  | .int a, .float b => Dec.eq ⟨a, 0⟩ b
  | .float a, .bool b => a.eq ⟨if b then 1 else 0, 0⟩
  | .bool a, .float b => Dec.eq ⟨if a then 1 else 0, 0⟩ b
  | .list a, .list b => a = b
  | .dict a, .dict b => a = b
  | _, _ => false

/-- Python `s.strip()`: drop leading and trailing whitespace.
(Structurally recursive so that proofs can evaluate it; Lean's own
`String.trim` does not reduce in the kernel.) -/
def pyStrip (s : String) : String :=
  String.mk (((s.toList.dropWhile Char.isWhitespace).reverse.dropWhile
    Char.isWhitespace).reverse)

/-- Python `sep.join(xs)` / comma-joined rendering. -/
def pyJoin (sep : String) : List String → String
  | [] => ""
  | [x] => x
  | x :: rest => x ++ sep ++ pyJoin sep rest

/-- Python `s.split(c)` for a one-character separator: splits at every
occurrence, keeping empty pieces, and is `[""]` on empty input. -/
def pySplit (c : Char) (s : String) : List String :=
  (s.toList.splitOn c).map String.mk

/-- Python `s.split(",")` followed by `strip` on each piece, as in
`CommaSeparatedParam.get_value_from_string`. -/
def splitStrip (s : String) : List String :=
  (pySplit ',' s).map pyStrip

/-- Digit list to natural number. -/
def digitsToNat (cs : List Char) : Nat :=
  cs.foldl (fun a c => a * 10 + (c.toNat - 48)) 0

/-- Nonempty and all decimal digits. -/
def allDigits (cs : List Char) : Bool :=
  cs ≠ [] && cs.all Char.isDigit

/-- Python `int(s)`: optional surrounding whitespace, optional sign, one
or more decimal digits; anything else raises `ValueError`, modelled as
`Option.none`. -/
def pyInt? (s : String) : Option Int :=
  let cs := (pyStrip s).toList
  match cs with
  | '-' :: rest => if allDigits rest then some (-(digitsToNat rest : Int)) else none
  | '+' :: rest => if allDigits rest then some ((digitsToNat rest : Int)) else none
  | rest => if allDigits rest then some ((digitsToNat rest : Int)) else none

/-- Mantissa of a Python float literal: `digits`, `digits.`, `.digits`
or `digits.digits`, returned as an exact decimal. -/
def floatMantissa? (cs : List Char) : Option Dec :=
  match cs.splitOn '.' with
  | [ip] => if allDigits ip then some ⟨(digitsToNat ip : Int), 0⟩ else none
  | [ip, fp] =>
      if (ip ≠ [] || fp ≠ []) && ip.all Char.isDigit && fp.all Char.isDigit then
        some ⟨(digitsToNat (ip ++ fp) : Int), fp.length⟩
      else none
  | _ => none

/-- Exponent part of a Python float literal (after `e`/`E`). -/
def floatExponent? (cs : List Char) : Option Int :=
  match cs with
  | '-' :: rest => if allDigits rest then some (-(digitsToNat rest : Int)) else none
  | '+' :: rest => if allDigits rest then some ((digitsToNat rest : Int)) else none
  | rest => if allDigits rest then some ((digitsToNat rest : Int)) else none

/-- Scale a decimal by `10 ^ x`. -/
def Dec.scale (d : Dec) (x : Int) : Dec :=
  if x ≥ 0 then ⟨d.m * (10 : Int) ^ x.toNat, d.s⟩ else ⟨d.m, d.s + (-x).toNat⟩

/-- Python `float(s)` on decimal literals: optional whitespace and sign,
mantissa, optional exponent. Parse failure (`ValueError`) is
`Option.none`. (`inf`/`nan` spellings are not modelled; no claim uses
them.) -/
def pyFloat? (s : String) : Option Dec :=
  let cs := (pyStrip s).toList
  let (neg, cs) :=
    match cs with
    | '-' :: rest => (true, rest)
    | '+' :: rest => (false, rest)
    | rest => (false, rest)
  let mantExp :=
    match (cs.splitOn 'e', cs.splitOn 'E') with
    | ([mp, e], _) => floatMantissa? mp |>.bind fun d => floatExponent? e |>.map fun x => (d, x)
    | (_, [mp, e]) => floatMantissa? mp |>.bind fun d => floatExponent? e |>.map fun x => (d, x)
    | _ => floatMantissa? cs |>.map fun d => (d, (0 : Int))
  mantExp.map fun (d, x) =>
    let v := d.scale x
    if neg then ⟨-v.m, v.s⟩ else v

/-- Lowercasing used by `configparser.getboolean`. -/
def pyLower (s : String) : String :=
  String.mk (s.toList.map Char.toLower)

/-- Boolean conversion used by `configparser.getboolean`: the value is
lowercased and looked up in the fixed table `1/yes/true/on` →
`True`, `0/no/false/off` → `False`; anything else raises `ValueError`
(modelled as `Option.none`). -/
def configBool? (s : String) : Option Bool :=
  match pyLower s with
  | "1" | "yes" | "true" | "on" => some true
  | "0" | "no" | "false" | "off" => some false
  | _ => none

/-- Decimal digit rendering of `m / 10^k` with `k > 0` fractional
digits. -/
def decimalStr (m : Nat) (k : Nat) : String :=
  let str := toString m
  let str := if str.length ≤ k then
      String.mk (List.replicate (k + 1 - str.length) '0') ++ str
    else str
  let cs := str.toList
  String.mk (cs.take (cs.length - k)) ++ "." ++ String.mk (cs.drop (cs.length - k))

/-- Python `str()` of a float (decimal rendering; scientific notation
for extreme magnitudes is not modelled — no claim prints such a
value). -/
def floatStr (d : Dec) : String :=
  if d.s = 0 then toString d.m ++ ".0"
  else (if d.m < 0 then "-" else "") ++ decimalStr d.m.natAbs d.s

/-- Python `str()` of the values above (as used by `Param.to_file` /
`Param.get_cfn_value`). List/dict renderings are approximate; neither is
exercised by any theorem below. -/
def pyStr : PValue → String
  | .none => "None"
  | .str s => s
  | .int n => toString n
  | .float d => floatStr d
  | .bool b => if b then "True" else "False"
  | .list xs => "[" ++ pyJoin ", " xs ++ "]"
  | .dict _ => "\x7b\x7d"

/-! ## Schema model (`mapping.py`)

Each Python parameter "map" is a dictionary with optional entries
`type`, `default`, `cfn`, `allowed_values`, `validator`,
`referred_section`. The `type` entry (a Python class) becomes a
`LeafType` tag; `validator` entries are injected collaborators declared
out of scope by the spec and are not modelled. -/

/-- Parameter class tag, one constructor per concrete `Param` subclass
in `param_types.py` usable inside a section (settings classes are
handled separately at the cluster level since their maps carry a
referred section). -/
inductive LeafType where
  | plain          -- Param
  | intP           -- IntParam
  | floatP         -- FloatParam
  | boolP          -- BoolParam
  | jsonP          -- JsonParam
  | commaSep       -- CommaSeparatedParam
  | sharedDir      -- SharedDirParam
  | spotPrice      -- SpotPriceParam
  | spotBid        -- SpotBidPercentageParam
  | desiredSize    -- DesiredSizeParam
  | maxSize        -- MaxSizeParam
  | maintainInit   -- MaintainInitialSizeParam
  | minSize        -- MinSizeParam
  | addlIamPolicies -- AdditionalIamPoliciesParam
  | availZone      -- AvailabilityZoneParam
  deriving DecidableEq, Repr

/-- Shape of a map's `allowed_values` entry: absent, a Python list of
values, or a regex pattern string. -/
inductive Allowed where
  | noRestriction
  | values (vs : List PValue)
  | re (p : String)
  deriving DecidableEq, Repr

/-- One parameter map from `mapping.py`. `dflt` is the raw `default`
entry (`PValue.none` when the map has none — Python's
`map.get("default", None)`). -/
structure ParamMap where
  key : String
  ltype : LeafType := .plain
  dflt : PValue := .none
  cfn : Option String := Option.none
  allowed : Allowed := .noRestriction
  deriving DecidableEq, Repr

/-- One section map from `mapping.py`: key, optional fixed label
(`""` when absent), optional section-level `cfn` converter (the single
comma-joined slot), and the ordered parameter maps. -/
structure SectionMap where
  key : String
  label : String := ""
  cfn : Option String := Option.none
  params : List ParamMap
  deriving DecidableEq, Repr

/-- Regex `CommonRegex.CIDR`. -/
def cidrRe : String :=
  "^\\d\x7b1,3\x7d\\.\\d\x7b1,3\x7d\\.\\d\x7b1,3\x7d\\.\\d\x7b1,3\x7d/(0|1[6-9]|2[0-9]|3[0-2])$"

/-- Regex `CommonRegex.SECURITY_GROUP_ID`. -/
def securityGroupRe : String := "^sg-[0-9a-z]\x7b8\x7d$|^sg-[0-9a-z]\x7b17\x7d$"

/-- Regex `CommonRegex.SUBNET_ID`. -/
def subnetRe : String := "^subnet-[0-9a-z]\x7b8\x7d$|^subnet-[0-9a-z]\x7b17\x7d$"

/-- Section map `SCALING`. -/
def SCALING : SectionMap where
  key := "scaling"
  label := "default"
  params := [
    { key := "scaledown_idletime", ltype := .intP, dflt := .int 10,
      cfn := some "ScaleDownIdleTime" }]

/-- Section map `VPC`. -/
def VPC : SectionMap where
  key := "vpc"
  label := "default"
  params := [
    { key := "vpc_id", cfn := some "VPCId",
      allowed := .re "^vpc-[0-9a-z]\x7b8\x7d$|^vpc-[0-9a-z]\x7b17\x7d$" },
    { key := "master_subnet_id", cfn := some "MasterSubnetId", allowed := .re subnetRe },
    { key := "ssh_from", dflt := .str "0.0.0.0/0", allowed := .re cidrRe,
      cfn := some "AccessFrom" },
    { key := "additional_sg", cfn := some "AdditionalSG", allowed := .re securityGroupRe },
    { key := "compute_subnet_id", cfn := some "ComputeSubnetId", allowed := .re subnetRe },
    { key := "compute_subnet_cidr", cfn := some "ComputeSubnetCidr", allowed := .re cidrRe },
    { key := "use_public_ips", ltype := .boolP, dflt := .bool true,
      cfn := some "UsePublicIps" },
    { key := "vpc_security_group_id", cfn := some "VPCSecurityGroupId",
      allowed := .re securityGroupRe },
    { key := "master_availability_zone", ltype := .availZone,
      cfn := some "AvailabilityZone" }]

/-- Section map `EBS`. -/
def EBS : SectionMap where
  key := "ebs"
  label := "default"
  params := [
    { key := "shared_dir", cfn := some "SharedDir" },
    { key := "ebs_snapshot_id",
      allowed := .re "^snap-[0-9a-z]\x7b8\x7d$|^snap-[0-9a-z]\x7b17\x7d$",
      cfn := some "EBSSnapshotId" },
    { key := "volume_type", dflt := .str "gp2",
      allowed := .values [.str "standard", .str "io1", .str "gp2", .str "st1", .str "sc1"],
      cfn := some "VolumeType" },
    { key := "volume_size", ltype := .intP, dflt := .int 20, cfn := some "VolumeSize" },
    { key := "volume_iops", ltype := .intP, dflt := .int 100, cfn := some "VolumeIOPS" },
    { key := "encrypted", ltype := .boolP, cfn := some "EBSEncryption", dflt := .bool false },
    { key := "ebs_kms_key_id", cfn := some "EBSKMSKeyId" },
    { key := "ebs_volume_id", cfn := some "EBSVolumeId",
      allowed := .re "^vol-[0-9a-z]\x7b8\x7d$|^vol-[0-9a-z]\x7b17\x7d$" }]

/-- Section map `EFS` (single comma-joined slot `EFSOptions`). -/
def EFS : SectionMap where
  key := "efs"
  label := "default"
  cfn := some "EFSOptions"
  params := [
    { key := "shared_dir" },
    { key := "efs_fs_id", allowed := .re "^fs-[0-9a-z]\x7b8\x7d$|^fs-[0-9a-z]\x7b17\x7d|NONE$" },
    { key := "performance_mode", dflt := .str "generalPurpose",
      allowed := .values [.str "generalPurpose", .str "maxIO"] },
    { key := "efs_kms_key_id" },
    { key := "provisioned_throughput", ltype := .floatP,
      allowed := .re "^([0-9]\x7b1,3\x7d|10[0-1][0-9]|102[0-4])(\\.[0-9])?$" },
    { key := "encrypted", ltype := .boolP, dflt := .bool false },
    { key := "throughput_mode", dflt := .str "bursting",
      allowed := .values [.str "provisioned", .str "bursting"] }]

/-- Section map `RAID` (single comma-joined slot `RAIDOptions`). -/
def RAID : SectionMap where
  key := "raid"
  label := "default"
  cfn := some "RAIDOptions"
  params := [
    { key := "shared_dir" },
    { key := "raid_type", ltype := .intP, allowed := .values [.int 0, .int 1] },
    { key := "num_of_raid_volumes", ltype := .intP, allowed := .re "^[1-5]$" },
    { key := "volume_type", dflt := .str "gp2",
      allowed := .values [.str "standard", .str "io1", .str "gp2", .str "st1", .str "sc1"] },
    { key := "volume_size", ltype := .intP, dflt := .int 20 },
    { key := "volume_iops", ltype := .intP, dflt := .int 100 },
    { key := "encrypted", ltype := .boolP, dflt := .bool false },
    { key := "ebs_kms_key_id" }]

/-- Section map `FSX` (single comma-joined slot `FSXOptions`). -/
def FSX : SectionMap where
  key := "fsx"
  label := "default"
  cfn := some "FSXOptions"
  params := [
    { key := "shared_dir" },
    { key := "fsx_fs_id", allowed := .re "^fs-[0-9a-z]\x7b17\x7d|NONE$" },
    { key := "storage_capacity", ltype := .intP },
    { key := "fsx_kms_key_id" },
    { key := "imported_file_chunk_size", ltype := .intP },
    { key := "export_path" },
    { key := "import_path" },
    { key := "weekly_maintenance_start_time" }]

/-- Kind of a cluster-section parameter: an ordinary leaf parameter, a
`SettingsParam` or an `EBSSettingsParam`, the latter two carrying the
`referred_section` map. -/
inductive CParamKind where
  | leaf (lt : LeafType)
  | settings (ref : SectionMap)
  | ebsSettings (ref : SectionMap)
  deriving DecidableEq, Repr

/-- One parameter map of the `CLUSTER` section. -/
structure CParamMap where
  key : String
  kind : CParamKind := .leaf .plain
  dflt : PValue := .none
  cfn : Option String := Option.none
  allowed : Allowed := .noRestriction
  deriving DecidableEq, Repr

/-- Parameter maps of the `CLUSTER` section map, in declaration
(= Python dict insertion) order. -/
def CLUSTER : List CParamMap := [
  { key := "key_name", cfn := some "KeyName" },
  { key := "template_url" },
  { key := "base_os", dflt := .str "alinux", cfn := some "BaseOS",
    allowed := .values [.str "alinux", .str "ubuntu1604", .str "ubuntu1804",
      .str "centos6", .str "centos7"] },
  { key := "scheduler", dflt := .str "sge", cfn := some "Scheduler",
    allowed := .values [.str "awsbatch", .str "sge", .str "slurm", .str "torque"] },
  { key := "shared_dir", kind := .leaf .sharedDir, cfn := some "SharedDir",
    dflt := .str "/shared" },
  { key := "placement_group", cfn := some "PlacementGroup" },
  { key := "placement", dflt := .str "compute", cfn := some "Placement",
    allowed := .values [.str "cluster", .str "compute"] },
  { key := "master_instance_type", dflt := .str "t2.micro", cfn := some "MasterInstanceType" },
  { key := "master_root_volume_size", kind := .leaf .intP, dflt := .int 20,
    allowed := .re "^([0-9]+[0-9]\x7b2\x7d|[2-9][0-9])$", cfn := some "MasterRootVolumeSize" },
  { key := "compute_instance_type", dflt := .str "t2.micro", cfn := some "ComputeInstanceType" },
  { key := "compute_root_volume_size", kind := .leaf .intP, dflt := .int 20,
    allowed := .re "^([0-9]+[0-9]\x7b2\x7d|[2-9][0-9])$", cfn := some "ComputeRootVolumeSize" },
  { key := "initial_queue_size", kind := .leaf .desiredSize, dflt := .int 0,
    cfn := some "DesiredSize" },
  { key := "max_queue_size", kind := .leaf .maxSize, dflt := .int 10, cfn := some "MaxSize" },
  { key := "maintain_initial_size", kind := .leaf .maintainInit, dflt := .bool false,
    cfn := some "MinSize" },
  { key := "min_vcpus", kind := .leaf .minSize, dflt := .int 0, cfn := some "MinSize" },
  { key := "desired_vcpus", kind := .leaf .desiredSize, dflt := .int 4,
    cfn := some "DesiredSize" },
  { key := "max_vcpus", kind := .leaf .maxSize, dflt := .int 10, cfn := some "MaxSize" },
  { key := "cluster_type", dflt := .str "ondemand",
    allowed := .values [.str "ondemand", .str "spot"], cfn := some "ClusterType" },
  { key := "spot_price", kind := .leaf .spotPrice, dflt := .float ⟨0, 1⟩, cfn := some "SpotPrice" },
  { key := "spot_bid_percentage", kind := .leaf .spotBid, dflt := .int 0,
    cfn := some "SpotPrice", allowed := .re "^(100|[1-9][0-9]|[0-9])$" },
  { key := "proxy_server", cfn := some "ProxyServer" },
  { key := "ec2_iam_role", cfn := some "EC2IAMRoleName" },
  { key := "additional_iam_policies", kind := .leaf .addlIamPolicies,
    cfn := some "EC2IAMPolicies" },
  { key := "s3_read_resource", cfn := some "S3ReadResource" },
  { key := "s3_read_write_resource", cfn := some "S3ReadWriteResource" },
  { key := "enable_efa", allowed := .values [.str "compute"], cfn := some "EFA" },
  { key := "ephemeral_dir", dflt := .str "/scratch", cfn := some "EphemeralDir" },
  { key := "encrypted_ephemeral", dflt := .bool false, kind := .leaf .boolP,
    cfn := some "EncryptedEphemeral" },
  { key := "custom_ami", cfn := some "CustomAMI",
    allowed := .re "^ami-[0-9a-z]\x7b8\x7d$|^ami-[0-9a-z]\x7b17\x7d$" },
  { key := "pre_install", cfn := some "PreInstallScript" },
  { key := "pre_install_args", cfn := some "PreInstallArgs" },
  { key := "post_install", cfn := some "PostInstallScript" },
  { key := "post_install_args", cfn := some "PostInstallArgs" },
  { key := "extra_json", kind := .leaf .jsonP, cfn := some "ExtraJson" },
  { key := "additional_cfn_template", cfn := some "AdditionalCfnTemplate" },
  { key := "tags", kind := .leaf .jsonP },
  { key := "custom_chef_cookbook", cfn := some "CustomChefCookbook" },
  { key := "custom_awsbatch_template_url", cfn := some "CustomAWSBatchTemplateURL" },
  { key := "scaling_settings", kind := .settings SCALING, dflt := .str "default" },
  { key := "vpc_settings", kind := .settings VPC, dflt := .str "default" },
  { key := "ebs_settings", kind := .ebsSettings EBS },
  { key := "efs_settings", kind := .settings EFS },
  { key := "raid_settings", kind := .settings RAID },
  { key := "fsx_settings", kind := .settings FSX }]

/-- Fixed label of the `CLUSTER` section map. -/
def clusterLabel : String := "default"

/-! ## Runtime model

Section instances, the config tree, the deployment (CFN) parameter
mapping, and the two sides of the `configparser` object (read side for
decoding, write side for encoding). -/

/-- Runtime `Section` instance: key, label, and the insertion-ordered
parameter dictionary `params` (`Section.add_param` keyed by
`param.key`). -/
structure SectionI where
  key : String
  label : String
  params : List (String × PValue)
  deriving DecidableEq, Repr

/-- Config tree: the Section instances owned by the `PclusterConfig`
object. -/
abbrev Tree := List SectionI

/-- Modelled from the spec: `pcluster_config.get_section(key, label)` —
the Config Tree is "mapping (section-kind, label) → Section instance;
at most one Section per (kind, label)" (`pcluster_config.py` is not
under `src/`). -/
def getSection (t : Tree) (key label : String) : Option SectionI :=
  t.find? (fun s => s.key = key && s.label = label)

/-- Modelled from the spec: `pcluster_config.get_section(key)` with no
label — returns the Section of the given kind, if any. -/
def getSectionByKey (t : Tree) (key : String) : Option SectionI :=
  t.find? (fun s => s.key = key)

/-- Modelled from the spec: `pcluster_config.add_section` — keeps at
most one Section per (kind, label), replacing an existing one. -/
def addSectionT (t : Tree) (sec : SectionI) : Tree :=
  if (getSection t sec.key sec.label).isSome then
    t.map (fun s => if s.key = sec.key && s.label = sec.label then sec else s)
  else t ++ [sec]

/-- Deployment-form parameter mapping (CFN stack parameters). -/
abbrev CfnParams := List (String × String)

/-- Modelled from the spec: `get_cfn_param` (`pcluster/utils.py` is not
under `src/`) — the deployment form is a "flat mapping from slot name to
string; absent/default optional scalar spelled with sentinel `NONE`",
so lookup returns the slot's string, `"NONE"` when absent. -/
def getCfnParam (m : CfnParams) (key : String) : String :=
  (m.lookup key).getD "NONE"

/-- Python dict insert/overwrite used by `Section.add_param`
(`self.params[param.key] = param`): replaces in place when the key
exists, appends otherwise. -/
def addParam (ps : List (String × PValue)) (key : String) (v : PValue) :
    List (String × PValue) :=
  if ps.any (fun kv => kv.1 = key) then
    ps.map (fun kv => if kv.1 = key then (key, v) else kv)
  else ps ++ [(key, v)]

/-- `Section.get_param`: `self.params[param_key]` — raises `KeyError`
when the key is absent (the dead `if not param` fallbacks in
`validate`/`to_file`/`to_cfn` would only run on a `None` entry, which is
never stored). -/
def getParamE (sec : SectionI) (key : String) : Except String PValue :=
  match sec.params.lookup key with
  | some v => .ok v
  | Option.none => .error ("KeyError: " ++ key)

/-- `_get_file_section_name`: `section_key + (" " + label if label else "")`. -/
def fileSectionName (key label : String) : String :=
  key ++ (if label ≠ "" then " " ++ label else "")

/-- Read side of `configparser`: section name → ordered `key = value`
entries. -/
structure ConfigFile where
  secs : List (String × List (String × String))
  deriving DecidableEq, Repr

/-- `config_parser.has_section`. -/
def hasSection (cfg : ConfigFile) (name : String) : Bool :=
  cfg.secs.any (fun s => s.1 = name)

/-- `config_parser.items(section)` (empty when the section is absent;
callers check `has_section` first). -/
def fileItems (cfg : ConfigFile) (name : String) : List (String × String) :=
  (cfg.secs.lookup name).getD []

/-- `config_parser.get(section, key)`: `Option.none` models
`NoOptionError`. -/
def fileGet (cfg : ConfigFile) (name key : String) : Option String :=
  (fileItems cfg name).lookup key

/-- Write side of `configparser`: the section headers added so far and
the `(section, key, value)` entries set so far. -/
structure ConfigState where
  secs : List String
  entries : List (String × String × String)
  deriving DecidableEq, Repr

/-- Fresh output `configparser`. -/
def emptyConfig : ConfigState := ⟨[], []⟩

/-- `config_parser.add_section`; every caller catches
`DuplicateSectionError` and continues, so adding an existing header is
a no-op. -/
def csAddSection (st : ConfigState) (name : String) : ConfigState :=
  if name ∈ st.secs then st else { st with secs := st.secs ++ [name] }

/-- `config_parser.set(section, key, value)`: raises `NoSectionError`
when the section header does not exist; otherwise overwrites/sets the
option. -/
def csSet (st : ConfigState) (name key v : String) : Except String ConfigState :=
  if name ∈ st.secs then
    if st.entries.any (fun e => e.1 = name && e.2.1 = key) then
      .ok { st with entries :=
        st.entries.map (fun e => if e.1 = name && e.2.1 = key then (name, key, v) else e) }
    else .ok { st with entries := st.entries ++ [(name, key, v)] }
  else .error ("NoSectionError: " ++ name)

/-- `config_parser.remove_option` as wrapped by the callers
(`try ... except NoSectionError: pass`): total removal. -/
def csRemoveOption (st : ConfigState) (name key : String) : ConfigState :=
  { st with entries := st.entries.filter (fun e => !(e.1 = name && e.2.1 = key)) }

/-- View of the written `configparser` as a readable config file (what
the external file writer would persist and a later run would read
back). -/
def stateToFile (st : ConfigState) : ConfigFile :=
  ⟨st.secs.map (fun n =>
    (n, st.entries.filterMap (fun e => if e.1 = n then some e.2 else Option.none)))⟩

/-! ## Parameter operations (`param_types.py`)

Fatal `error(...)` calls print the message and `sys.exit(1)` (confirmed
by the test fixtures expecting `SystemExit` with code 1); they are
modelled as `Except.error` carrying the message. -/

/-- `get_default_value`: `self.map.get("default", None)`, overridden by
`CommaSeparatedParam` (default `[]`) and `JsonParam` (default `{}`). -/
def getDefaultValue (lt : LeafType) (dflt : PValue) : PValue :=
  match lt with
  | .commaSep | .addlIamPolicies => if dflt = .none then .list [] else dflt
  | .jsonP => if dflt = .none then .dict [] else dflt
  | _ => dflt

/-- `_init_from_map`: the parameter value defaults to
`get_default_value()`. -/
def initFromMapValue (lt : LeafType) (dflt : PValue) : PValue :=
  getDefaultValue lt dflt

/-- `Param.get_value_from_string` (also inherited by
`SharedDirParam` and `AvailabilityZoneParam`): strip, then keep the
text unless it is empty or the `NONE` sentinel. -/
def strValueFromString (dflt : PValue) (s : String) : PValue :=
  let s := pyStrip s
  if s ≠ "" && s ≠ "NONE" then .str s else dflt

/-- `IntParam.get_value_from_string`: strip; `NONE` keeps the default;
otherwise `int(...)`, whose `ValueError` is swallowed
(`except ValueError: pass`), silently keeping the default. -/
def intValueFromString (dflt : PValue) (s : String) : PValue :=
  let s := pyStrip s
  if s ≠ "NONE" then
    match pyInt? s with
    | some n => .int n
    | Option.none => dflt
  else dflt

/-- `FloatParam.get_value_from_string`: like the int case with
`float(...)`, `ValueError` swallowed. -/
def floatValueFromString (dflt : PValue) (s : String) : PValue :=
  let s := pyStrip s
  if s ≠ "NONE" then
    match pyFloat? s with
    | some q => .float q
    | Option.none => dflt
  else dflt

/-- `BoolParam.get_value_from_string`: strip; unless `NONE`, the value
is the comparison `string_value == "true"` — no coercion failure is
possible. -/
def boolValueFromString (dflt : PValue) (s : String) : PValue :=
  let s := pyStrip s
  if s ≠ "NONE" then .bool (s == "true") else dflt

/-- `CommaSeparatedParam.get_value_from_string`: split on commas and
strip each piece; empty text or `NONE` keeps the (list) default. -/
def commaValueFromString (dflt : PValue) (s : String) : PValue :=
  if s ≠ "" && s ≠ "NONE" then .list (splitStrip s)
  else getDefaultValue .commaSep dflt

/-- Minimal model of `yaml.safe_load` as used by
`JsonParam.get_value_from_string`: the empty mapping literal parses to
`{}`, other brace/bracket-led text is treated as a parse failure, and
bare scalars parse to themselves (int or string). No claim decodes
structured JSON/YAML text. -/
def yamlLoad? (s : String) : Option PValue :=
  if s = "\x7b\x7d" then some (.dict [])
  else
    let headBrace := match s.toList with
      | c :: _ => c = Char.ofNat 123 || c = '['
      | [] => false
    if headBrace then Option.none
    else match pyInt? s with
      | some n => some (.int n)
      | Option.none => some (.str s)

/-- `JsonParam.get_value_from_string`: empty text keeps the default;
`NONE` keeps the default; a parse failure is fatal, naming the
parameter key. -/
def jsonValueFromString (key : String) (dflt : PValue) (s : String) :
    Except String PValue :=
  if s ≠ "" then
    let s := pyStrip s
    if s ≠ "NONE" then
      match yamlLoad? s with
      | some v => .ok v
      | Option.none => .error ("Error parsing JSON parameter \x27" ++ key ++ "\x27.")
    else .ok (getDefaultValue .jsonP dflt)
  else .ok (getDefaultValue .jsonP dflt)

/-- `get_value_from_string` dispatched on the parameter class; the
conditional parameter classes inherit it from their respective base
class (`IntParam`, `FloatParam`, `BoolParam`, `CommaSeparatedParam`). -/
def getValueFromString (key : String) (lt : LeafType) (dflt : PValue) (s : String) :
    Except String PValue :=
  match lt with
  | .plain | .sharedDir | .availZone => .ok (strValueFromString dflt s)
  | .intP | .spotBid | .desiredSize | .maxSize | .minSize => .ok (intValueFromString dflt s)
  | .floatP | .spotPrice => .ok (floatValueFromString dflt s)
  | .boolP | .maintainInit => .ok (boolValueFromString dflt s)
  | .commaSep | .addlIamPolicies => .ok (commaValueFromString dflt s)
  | .jsonP => jsonValueFromString key dflt s

/-- `get_cfn_value`: base class renders `str(value)` falling back to the
map default or the `NONE` sentinel; `BoolParam` renders `"true"/"false"`
and `CommaSeparatedParam` comma-joins. -/
def getCfnValue (lt : LeafType) (dflt : PValue) (v : PValue) : String :=
  match lt with
  | .boolP | .maintainInit =>
      let pv := if v = .none then dflt else v
      if pyTruthy pv then "true" else "false"
  | .commaSep | .addlIamPolicies =>
      if pyTruthy v then
        match v with
        | .list xs => pyJoin "," xs
        | other => pyStr other
      else if dflt = .none then "NONE" else pyStr dflt
  | _ => if v ≠ .none then pyStr v else (if dflt = .none then "NONE" else pyStr dflt)

/-- `Param.to_cfn` for the non-conditional classes: emit
`{cfn_converter: str(get_cfn_value())}` when the map has a `cfn`
entry, nothing otherwise. -/
def paramToCfnBase (pm : ParamMap) (v : PValue) : List (String × String) :=
  match pm.cfn with
  | some c => [(c, getCfnValue pm.ltype pm.dflt v)]
  | Option.none => []

/-! ## Pattern matching (`re.compile(p).match(s)` for the schema patterns)

The `allowed_values` patterns in `mapping.py` use literals, `\d` and
`\.` escapes, character classes with ranges, groups, alternation, the
`^`/`$` anchors and the `\x7bn\x7d`/`\x7bm,n\x7d`/`+`/`?` quantifiers;
the reader and matcher below cover exactly these constructs. -/

/-- Regular-expression syntax for the schema patterns. Bounded
quantifiers are compiled away at parse time; `+` becomes
`seq a (star a)`. -/
inductive Re where
  | eps : Re
  | lit (c : Char) : Re
  | cls (ranges : List (Char × Char)) : Re
  | startA : Re
  | endA : Re
  | seq (a b : Re) : Re
  | alt (a b : Re) : Re
  | star (a : Re) : Re
  deriving Repr, DecidableEq

/-- Iterate a sub-matcher at least once; only consuming iterations are
kept (a non-consuming iteration reaches no new state), so the loop is
bounded by the input length, which the caller passes as fuel. -/
def starIter (f : Bool → List Char → List (Bool × List Char)) :
    Nat → Bool → List Char → List (Bool × List Char)
  | 0, _, _ => []
  | fuel + 1, st, rest =>
      (f st rest).flatMap (fun p =>
        if p.2.length < rest.length then (p.1, p.2) :: starIter f fuel p.1 p.2 else [])

/-- Match states reachable by one regex from a given state: a state is
(still at string start, remaining input). A literal or class consumes
one character; anchors consume nothing; `star` contributes the
zero-iteration state and then the consuming iterations. -/
def matchRe : Re → Bool → List Char → List (Bool × List Char)
  | .eps, st, rest => [(st, rest)]
  | .lit _, _, [] => []
  | .lit c, _, x :: rest => if x = c then [(false, rest)] else []
  | .cls _, _, [] => []
  | .cls rs, _, x :: rest =>
      if rs.any (fun r => r.1 ≤ x && x ≤ r.2) then [(false, rest)] else []
  | .startA, st, rest => if st then [(st, rest)] else []
  | .endA, st, rest => if rest.isEmpty then [(st, rest)] else []
  | .seq a b, st, rest => (matchRe a st rest).flatMap (fun p => matchRe b p.1 p.2)
  | .alt a b, st, rest => matchRe a st rest ++ matchRe b st rest
  | .star a, st, rest => (st, rest) :: starIter (matchRe a) rest.length st rest

/-- Sequence of `n` copies of a regex (`\x7bn\x7d` unrolled). -/
def repN (a : Re) : Nat → Re
  | 0 => .eps
  | n + 1 => .seq a (repN a n)

/-- Up to `n` further copies (`\x7bm,n\x7d` unrolled past the mandatory
part). -/
def optN (a : Re) : Nat → Re
  | 0 => .eps
  | n + 1 => .alt (.seq a (optN a n)) .eps

/-- Digit run at the head of the input (for quantifier bounds). -/
def readNat (cs : List Char) : Option (Nat × List Char) :=
  let digits := cs.takeWhile Char.isDigit
  if digits.isEmpty then Option.none
  else some (digitsToNat digits, cs.drop digits.length)

/-- Character-class body (after `[`, up to `]`): single characters and
`a-b` ranges. -/
def parseClass : Nat → List Char → Option (List (Char × Char) × List Char)
  | 0, _ => Option.none
  | _ + 1, [] => Option.none
  | fuel + 1, c :: rest =>
      if c = ']' then some ([], rest)
      else match rest with
        | '-' :: d :: rest2 =>
            if d = ']' then
              (parseClass fuel ('-' :: d :: rest2)).map
                (fun p => ((c, c) :: p.1, p.2))
            else
              (parseClass fuel rest2).map (fun p => ((c, d) :: p.1, p.2))
        | _ => (parseClass fuel rest).map (fun p => ((c, c) :: p.1, p.2))

/-- Grammar level being parsed: alternation, concatenation, or a single
quantified atom. -/
inductive ReLevel where
  | altL : ReLevel
  | seqL : ReLevel
  | itemL : ReLevel
  deriving Repr, DecidableEq

/-- Recursive-descent pattern reader, fueled for structural recursion
(the fuel passed by `parseRe` exceeds any derivation depth: each level
either consumes a character or moves to the next lower level). -/
def parseLevel : Nat → ReLevel → List Char → Option (Re × List Char)
  | 0, _, _ => Option.none
  | fuel + 1, .altL, cs => do
      let (r, rest) ← parseLevel fuel .seqL cs
      match rest with
      | '|' :: more => do
          let (r2, rest2) ← parseLevel fuel .altL more
          some (.alt r r2, rest2)
      | _ => some (r, rest)
  | fuel + 1, .seqL, cs =>
      match cs with
      | [] => some (.eps, [])
      | ')' :: _ => some (.eps, cs)
      | '|' :: _ => some (.eps, cs)
      | _ => do
          let (item, rest) ← parseLevel fuel .itemL cs
          let (r2, rest2) ← parseLevel fuel .seqL rest
          some (.seq item r2, rest2)
  | fuel + 1, .itemL, cs => do
      let (atom, rest) ←
        match cs with
        | '^' :: rest => some ((Re.startA, rest) : Re × List Char)
        | '$' :: rest => some (Re.endA, rest)
        | '\\' :: c :: rest =>
            if c = 'd' then some (Re.cls [('0', '9')], rest) else some (Re.lit c, rest)
        | '[' :: rest => do
            let (rs, rest2) ← parseClass (rest.length + 1) rest
            some (Re.cls rs, rest2)
        | '(' :: rest => do
            let (r, rest2) ← parseLevel fuel .altL rest
            match rest2 with
            | ')' :: rest3 => some (r, rest3)
            | _ => Option.none
        | '.' :: rest => some (Re.cls [(Char.ofNat 0, Char.ofNat 1114111)], rest)
        | c :: rest => some (Re.lit c, rest)
        | [] => Option.none
      match rest with
      | '+' :: rest2 => some (Re.seq atom (Re.star atom), rest2)
      | '?' :: rest2 => some (Re.alt atom Re.eps, rest2)
      | '*' :: rest2 => some (Re.star atom, rest2)
      | c :: rest2 =>
          if c = Char.ofNat 123 then do
            let (m, rest3) ← readNat rest2
            match rest3 with
            | c2 :: rest4 =>
                if c2 = Char.ofNat 125 then some (repN atom m, rest4)
                else if c2 = ',' then do
                  let (n, rest5) ← readNat rest4
                  match rest5 with
                  | c3 :: rest6 =>
                      if c3 = Char.ofNat 125 then
                        some (Re.seq (repN atom m) (optN atom (n - m)), rest6)
                      else Option.none
                  | [] => Option.none
                else Option.none
            | [] => Option.none
          else some (atom, c :: rest2)
      | [] => some (atom, [])

/-- Compile a pattern string; `Option.none` when the pattern does not
parse (the schema patterns all parse, see `schema_patterns_compile`). -/
def parseRe (p : String) : Option Re :=
  match parseLevel (3 * p.length + 10) .altL p.toList with
  | some (r, []) => some r
  | _ => Option.none

/-- Truthiness of Python `re.compile(p).match(s)`: some match starting
at position 0, trailing text allowed unless the pattern demands `$`.
An unparseable pattern matches nothing (`re.compile` would raise
instead; the schema patterns, the only patterns ever reaching this,
all compile). -/
def reMatch (p s : String) : Bool :=
  match parseRe p with
  | some r => !(matchRe r true s.toList).isEmpty
  | Option.none => false

/-- Python `repr` of an allowed value, as `str(list)` renders list
elements in the invalid-value message: strings quoted, numbers plain. -/
def pyRepr : PValue → String
  | .str s => "\x27" ++ s ++ "\x27"
  | v => pyStr v

/-- `_check_allowed_values`: the list branch uses Python `in` (element
equality) and formats the allowed list with `str(list)`; the regex
branch is `re.compile(allowed_values).match(str(self.value))`, fatal
when the match fails, with the pattern string as the allowed values in
the message. -/
def checkAllowed (key : String) (allowed : Allowed) (v : PValue) : Except String Unit :=
  match allowed with
  | .noRestriction => .ok ()
  | .values vs =>
      if vs.any (fun a => pyEq v a) then .ok ()
      else .error ("The configuration parameter \x27" ++ key ++ "\x27 has an invalid value \x27"
        ++ pyStr v ++ "\x27\nAllowed values are: ["
        ++ pyJoin ", " (vs.map pyRepr) ++ "]")
  | .re p =>
      if reMatch p (pyStr v) then .ok ()
      else .error ("The configuration parameter \x27" ++ key ++ "\x27 has an invalid value \x27"
        ++ pyStr v ++ "\x27\nAllowed values are: " ++ p)

/-! ## Conditional parameters: decode from CFN parameters

Each `*._init_from_cfn` below is the branch taken when both a `cfn`
converter and the full CFN parameter mapping are present (the
`if cfn_converter and cfn_params:` branch of the Python method). -/

/-- `DesiredSizeParam._init_from_cfn`: the `DesiredSize` slot feeds
`desired_vcpus` when `Scheduler` is `awsbatch` and `initial_queue_size`
otherwise; the non-live twin falls back to its map default. (A key other
than those two leaves `self.value` unset in Python; modelled as
`PValue.none`, unreachable for the real schema.) -/
def desiredSizeInitFromCfn (key : String) (dflt : PValue) (cfnName : Option String)
    (m : CfnParams) : PValue :=
  let cfnValue := match cfnName with
    | some c => getCfnParam m c
    | Option.none => "NONE"
  if getCfnParam m "Scheduler" = "awsbatch" then
    if key = "initial_queue_size" then initFromMapValue .desiredSize dflt
    else if key = "desired_vcpus" then intValueFromString dflt cfnValue
    else .none
  else
    if key = "initial_queue_size" then intValueFromString dflt cfnValue
    else if key = "desired_vcpus" then initFromMapValue .desiredSize dflt
    else .none

/-- `MaxSizeParam._init_from_cfn`: `MaxSize` feeds `max_vcpus` for
`awsbatch`, `max_queue_size` otherwise. -/
def maxSizeInitFromCfn (key : String) (dflt : PValue) (cfnName : Option String)
    (m : CfnParams) : PValue :=
  let cfnValue := match cfnName with
    | some c => getCfnParam m c
    | Option.none => "NONE"
  if getCfnParam m "Scheduler" = "awsbatch" then
    if key = "max_queue_size" then initFromMapValue .maxSize dflt
    else if key = "max_vcpus" then intValueFromString dflt cfnValue
    else .none
  else
    if key = "max_queue_size" then intValueFromString dflt cfnValue
    else if key = "max_vcpus" then initFromMapValue .maxSize dflt
    else .none

/-- `MaintainInitialSizeParam._init_from_cfn`: for `awsbatch` the map
default; otherwise `MinSize > 0` (sentinel `NONE` counting as 0), an
unparseable slot raising `ValueError`. -/
def maintainInitFromCfn (dflt : PValue) (cfnName : Option String) (m : CfnParams) :
    Except String PValue :=
  if getCfnParam m "Scheduler" = "awsbatch" then
    .ok (initFromMapValue .maintainInit dflt)
  else
    let minSizeCfnValue := match cfnName with
      | some c => getCfnParam m c
      | Option.none => "0"
    if minSizeCfnValue ≠ "NONE" then
      match pyInt? minSizeCfnValue with
      | some n => .ok (.bool (n > 0))
      | Option.none => .error ("ValueError: invalid literal for int(): " ++ minSizeCfnValue)
    else .ok (.bool false)

/-- `MinSizeParam._init_from_cfn`: `min_vcpus` reads `MinSize` for
`awsbatch`, otherwise the map default. -/
def minSizeInitFromCfn (dflt : PValue) (cfnName : Option String) (m : CfnParams) : PValue :=
  let cfnValue := match cfnName with
    | some c => getCfnParam m c
    | Option.none => "NONE"
  if getCfnParam m "Scheduler" = "awsbatch" then intValueFromString dflt cfnValue
  else initFromMapValue .minSize dflt

/-- `SpotPriceParam._init_from_cfn`: map default for `awsbatch`,
otherwise `float(get_cfn_param(...))` with an uncaught `ValueError`. -/
def spotPriceInitFromCfn (dflt : PValue) (cfnName : Option String) (m : CfnParams) :
    Except String PValue :=
  if getCfnParam m "Scheduler" = "awsbatch" then
    .ok (initFromMapValue .spotPrice dflt)
  else
    let s := match cfnName with
      | some c => getCfnParam m c
      | Option.none => "NONE"
    match pyFloat? s with
    | some q => .ok (.float q)
    | Option.none => .error ("ValueError: could not convert string to float: " ++ s)

/-- Python `int()` applied to a float: truncation toward zero. -/
def decTruncate (d : Dec) : Int :=
  Int.tdiv d.m ((10 : Int) ^ d.s)

/-- `SpotBidPercentageParam._init_from_cfn`: for `awsbatch` the shared
`SpotPrice` slot read as `int(float(...))`, otherwise the map
default. -/
def spotBidInitFromCfn (dflt : PValue) (cfnName : Option String) (m : CfnParams) :
    Except String PValue :=
  if getCfnParam m "Scheduler" = "awsbatch" then
    let s := match cfnName with
      | some c => getCfnParam m c
      | Option.none => "NONE"
    match pyFloat? s with
    | some q => .ok (.int (decTruncate q))
    | Option.none => .error ("ValueError: could not convert string to float: " ++ s)
  else .ok (initFromMapValue .spotBid dflt)

/-- Modelled from the spec: `get_partition` (`pcluster/utils.py` is not
under `src/`) — the standard commercial partition name. -/
def partitionName : String := "aws"

/-- `AdditionalIamPoliciesParam.aws_batch_iam_policy`. -/
def awsBatchIamPolicy : String :=
  "arn:" ++ partitionName ++ ":iam::aws:policy/AWSBatchFullAccess"

/-- Value cleanup in `AdditionalIamPoliciesParam._init_from_cfn`:
remove the awsbatch policy from the decoded list, if there. -/
def dropAwsBatchPolicy : PValue → PValue
  | .list xs => .list (xs.erase awsBatchIamPolicy)
  | v => v

/-- `Param.__init__` with a single `cfn_value` (a slice of a comma
separated CFN slot): a nonempty value goes through
`get_value_from_string`, an empty one falls back to the map default
(the `if cfn_params or cfn_value:` / `elif cfn_value:` truthiness
tests). `AdditionalIamPoliciesParam` additionally removes the awsbatch
policy. -/
def paramInitFromCfnValue (pm : ParamMap) (cfnValue : String) : Except String PValue := do
  let v ← if cfnValue ≠ "" then getValueFromString pm.key pm.ltype pm.dflt cfnValue
    else .ok (initFromMapValue pm.ltype pm.dflt)
  match pm.ltype with
  | .addlIamPolicies => .ok (dropAwsBatchPolicy v)
  | _ => .ok v

/-- `Param.__init__` from the full CFN parameter mapping, dispatching to
the subclass `_init_from_cfn`. Without a `cfn` converter every class
falls back to the map default (`elif cfn_value:` with no value). -/
def paramInitFromCfnParams (pm : ParamMap) (m : CfnParams) : Except String PValue :=
  match pm.cfn with
  | Option.none => .ok (initFromMapValue pm.ltype pm.dflt)
  | some c =>
    match pm.ltype with
    | .desiredSize => .ok (desiredSizeInitFromCfn pm.key pm.dflt (some c) m)
    | .maxSize => .ok (maxSizeInitFromCfn pm.key pm.dflt (some c) m)
    | .maintainInit => maintainInitFromCfn pm.dflt (some c) m
    | .minSize => .ok (minSizeInitFromCfn pm.dflt (some c) m)
    | .spotPrice => spotPriceInitFromCfn pm.dflt (some c) m
    | .spotBid => spotBidInitFromCfn pm.dflt (some c) m
    | .addlIamPolicies => do
        let v ← getValueFromString pm.key pm.ltype pm.dflt (getCfnParam m c)
        .ok (dropAwsBatchPolicy v)
    | _ => getValueFromString pm.key pm.ltype pm.dflt (getCfnParam m c)

/-! ## Parameter decode from config file -/

/-- Modelled from the spec: injected oracle "resolve availability zone
for a subnet id" (`pcluster/utils.get_avail_zone` is not under `src/`);
represented as a fixed total lookup — no claim depends on its result. -/
def availZoneOracle (_subnet : String) : String := "us-east-1a"

/-- Parameter construction from the config file
(`Param.__init__` with a `config_parser`), per subclass
`_init_from_file`: a missing option (`NoOptionError`) falls back to the
map default; a failed type coercion or allowed-value check is fatal. -/
def paramInitFromFile (sname : String) (pm : ParamMap) (cfg : ConfigFile) :
    Except String PValue :=
  match pm.ltype with
  | .availZone =>
      match fileGet cfg sname "master_subnet_id" with
      | some sub => do
          let v := PValue.str (availZoneOracle sub)
          checkAllowed pm.key pm.allowed v
          .ok v
      | Option.none => .ok (initFromMapValue pm.ltype pm.dflt)
  | lt =>
    match fileGet cfg sname pm.key with
    | Option.none => .ok (initFromMapValue lt pm.dflt)
    | some text =>
      match lt with
      | .plain | .sharedDir => do
          checkAllowed pm.key pm.allowed (.str text)
          .ok (.str text)
      | .intP | .spotBid | .desiredSize | .maxSize | .minSize =>
          match pyInt? text with
          | some n => do
              checkAllowed pm.key pm.allowed (.int n)
              .ok (.int n)
          | Option.none =>
              .error ("Configuration parameter \x27" ++ pm.key ++ "\x27 must be an Integer")
      | .floatP | .spotPrice =>
          match pyFloat? text with
          | some q => do
              checkAllowed pm.key pm.allowed (.float q)
              .ok (.float q)
          | Option.none =>
              .error ("Configuration parameter \x27" ++ pm.key ++ "\x27 must be a Float")
      | .boolP | .maintainInit =>
          match configBool? text with
          | some b => do
              checkAllowed pm.key pm.allowed (.bool b)
              .ok (.bool b)
          | Option.none =>
              .error ("Configuration parameter \x27" ++ pm.key ++ "\x27 must be a Boolean")
      | .jsonP => do
          let v ← jsonValueFromString pm.key pm.dflt text
          checkAllowed pm.key pm.allowed v
          .ok v
      | .commaSep | .addlIamPolicies => do
          let v := PValue.list ((pySplit ',' text).map pyStrip)
          checkAllowed pm.key pm.allowed v
          .ok v
      | .availZone => .ok .none  -- handled above

/-! ## Section construction (`Section.__init__`) -/

/-- Label resolution `section_label or self.map.get("label", "")`. -/
def sectionLabelOf (smap : SectionMap) (lbl : Option String) : String :=
  match lbl with
  | some l => if l ≠ "" then l else smap.label
  | Option.none => smap.label

/-- `Section._init_params_from_map`: one default-valued parameter per
schema entry. -/
def sectionInitFromMap (smap : SectionMap) (lbl : Option String) : SectionI :=
  ⟨smap.key, sectionLabelOf smap lbl,
    smap.params.foldl (fun acc pm => addParam acc pm.key (initFromMapValue pm.ltype pm.dflt)) []⟩

/-- Keys of a file block not declared by the section schema
(`[key for key, value in config_parser.items(name) if key not in section_map_items]`). -/
def undeclaredKeys (smap : SectionMap) (items : List (String × String)) : List String :=
  (items.filter (fun kv => !smap.params.any (fun pm => pm.key = kv.1))).map (fun kv => kv.1)

/-- Fatal message of `Section._init_params_from_file` for undeclared
keys, with its singular/plural forms. -/
def notAllowedMsg (bad : List String) (sname : String) : String :=
  "The configuration parameter" ++ (if bad.length > 1 then "s" else "") ++ " \x27"
    ++ pyJoin "," bad ++ "\x27 " ++ (if bad.length > 1 then "are" else "is")
    ++ " not allowed in the [" ++ sname ++ "] section"

/-- Loop body of `Section._init_params_from_file`: construct each
parameter in schema order, and (inside the loop, hence on the first
iteration already) abort fatally if the block holds undeclared keys. -/
def sectionFileLoop (smap : SectionMap) (sname : String) (cfg : ConfigFile) :
    List ParamMap → List (String × PValue) → Except String (List (String × PValue))
  | [], acc => .ok acc
  | pm :: rest, acc => do
      let v ← paramInitFromFile sname pm cfg
      let acc := addParam acc pm.key v
      let bad := undeclaredKeys smap (fileItems cfg sname)
      if bad ≠ [] then .error (notAllowedMsg bad sname)
      else sectionFileLoop smap sname cfg rest acc

/-- `Section.__init__` with a `config_parser`: a present block is decoded
key by key; an absent block is fatal under `fail_on_absence`, otherwise
the defaults are used (`SectionNotFoundError` handling). -/
def sectionInitFromFile (smap : SectionMap) (lbl : Option String) (failOnAbsence : Bool)
    (cfg : ConfigFile) : Except String SectionI :=
  let label := sectionLabelOf smap lbl
  let sname := fileSectionName smap.key label
  if hasSection cfg sname then do
    let ps ← sectionFileLoop smap sname cfg smap.params []
    .ok ⟨smap.key, label, ps⟩
  else if failOnAbsence then
    .error ("Section \x27[" ++ sname ++ "]\x27 not found in the config file.")
  else .ok (sectionInitFromMap smap lbl)

/-- Loop of `Section._init_params_from_cfn` in the single-slot case: the
section's one CFN slot is split on commas and assigned positionally in
schema order, a missing position falling back to the `NONE` sentinel
(`except IndexError`). -/
def sectionCfnSlotLoop (cfnValues : List String) :
    List (Nat × ParamMap) → List (String × PValue) → Except String (List (String × PValue))
  | [], acc => .ok acc
  | (i, pm) :: rest, acc => do
      let cfnValue := cfnValues.getD i "NONE"
      let v ← paramInitFromCfnValue pm cfnValue
      sectionCfnSlotLoop cfnValues rest (addParam acc pm.key v)

/-- Loop of `Section._init_params_from_cfn` in the per-parameter case:
each parameter reads the full CFN mapping itself. -/
def sectionCfnParamsLoop (m : CfnParams) :
    List ParamMap → List (String × PValue) → Except String (List (String × PValue))
  | [], acc => .ok acc
  | pm :: rest, acc => do
      let v ← paramInitFromCfnParams pm m
      sectionCfnParamsLoop m rest (addParam acc pm.key v)

/-- `Section.__init__` with `cfn_params`
(`Section._init_params_from_cfn`). -/
def sectionInitFromCfn (smap : SectionMap) (lbl : Option String) (m : CfnParams) :
    Except String SectionI :=
  let label := sectionLabelOf smap lbl
  match smap.cfn with
  | some conv => do
      let cfnValues := pySplit ',' (getCfnParam m conv)
      let ps ← sectionCfnSlotLoop cfnValues smap.params.enum []
      .ok ⟨smap.key, label, ps⟩
  | Option.none => do
      let ps ← sectionCfnParamsLoop m smap.params []
      .ok ⟨smap.key, label, ps⟩

/-! ## Encoding to file (`to_file`) -/

/-- Helper to view a cluster parameter map with a leaf kind as a plain
`ParamMap`. -/
def leafMapOf (cp : CParamMap) (lt : LeafType) : ParamMap :=
  ⟨cp.key, lt, cp.dflt, cp.cfn, cp.allowed⟩

/-- `Param.to_file` dispatched on the parameter class. The conditional
size/price classes inherit it from their base class; `SharedDirParam`
writes only when no `ebs` section exists;
`AvailabilityZoneParam.to_file` is a no-op. -/
def paramToFile (sname : String) (pm : ParamMap) (v : PValue) (t : Tree)
    (st : ConfigState) : Except String ConfigState :=
  match pm.ltype with
  | .boolP | .maintainInit =>
      if !pyEq v pm.dflt then csSet st sname pm.key (getCfnValue pm.ltype pm.dflt v)
      else .ok (csRemoveOption st sname pm.key)
  | .commaSep | .addlIamPolicies =>
      let v := if pm.ltype = .addlIamPolicies then dropAwsBatchPolicy v else v
      if v ≠ .none && !pyEq v (getDefaultValue pm.ltype pm.dflt) then
        match v with
        | .list xs => csSet st sname pm.key (pyJoin "," xs)
        | _ => .error "TypeError: can only join an iterable"
      else .ok (csRemoveOption st sname pm.key)
  | .sharedDir =>
      if (getSectionByKey t "ebs").isNone && !pyEq v (getDefaultValue pm.ltype pm.dflt) then
        match v with
        | .str s => csSet st sname pm.key s
        | _ => .error "TypeError: option values must be strings"
      else .ok st
  | .availZone => .ok st
  | _ =>
      if v ≠ .none && !pyEq v (getDefaultValue pm.ltype pm.dflt) then
        csSet st sname pm.key (pyStr v)
      else .ok (csRemoveOption st sname pm.key)

/-- Loop of `Section.to_file`: the block header is added once, when the
first parameter whose value differs (Python `!=`) from the raw map
default (`param_map.get("default", None)`) is encountered; every
parameter is then written through its own `to_file`. -/
def sectionToFileLoop (sname : String) (sec : SectionI) (t : Tree) :
    List ParamMap → Bool → ConfigState → Except String ConfigState
  | [], _, st => .ok st
  | pm :: rest, created, st => do
      let v ← getParamE sec pm.key
      let (created, st) :=
        if !created && !pyEq v pm.dflt then (true, csAddSection st sname)
        else (created, st)
      let st ← paramToFile sname pm v t st
      sectionToFileLoop sname sec t rest created st

/-- `Section.to_file`. -/
def sectionToFile (smap : SectionMap) (sec : SectionI) (t : Tree) (st : ConfigState) :
    Except String ConfigState :=
  sectionToFileLoop (fileSectionName smap.key sec.label) sec t smap.params false st

/-- Inner loop of `SettingsParam.to_file`: add the parent block header
and the `*_settings = label` line once, when some referred-section
parameter differs from its raw map default. -/
def settingsHeaderLoop (parentName key label : String) (sec : SectionI) :
    List ParamMap → Bool → ConfigState → Except String ConfigState
  | [], _, st => .ok st
  | pm :: rest, created, st => do
      let v ← getParamE sec pm.key
      if !created && !pyEq v pm.dflt then do
        let st := csAddSection st parentName
        let st ← csSet st parentName key label
        settingsHeaderLoop parentName key label sec rest true st
      else settingsHeaderLoop parentName key label sec rest created st

/-- `SettingsParam.to_file`: nothing is written when the referred
section does not exist in the tree; otherwise the settings line is
written sparsely and the referred section is encoded with the ordinary
`Section.to_file`. -/
def settingsToFile (parentName key : String) (ref : SectionMap) (v : PValue)
    (t : Tree) (st : ConfigState) : Except String ConfigState :=
  let sec? := match v with
    | .str s => getSection t ref.key s
    | _ => Option.none
  match sec? with
  | Option.none => .ok st
  | some sec => do
      let label := match v with | .str s => s | _ => ""
      let st ← settingsHeaderLoop parentName key label sec ref.params false st
      sectionToFile ref sec t st

/-- CPython semantics of `dict.update(obj)` when `obj` is a `Section`
instance or `None`: `Section` (param_types.py) defines no mapping
protocol — no `keys` method and no `__iter__` — so the call raises
`TypeError`; likewise for `None`. -/
def dictUpdateWithSection {α : Type} (_sec : Option SectionI) : Except String α :=
  .error "TypeError: object is not iterable"

/-- `EBSSettingsParam.to_file` as written in the source: with a
nonempty settings value it evaluates
`sections.update(self.pcluster_config.get_section(...))` on the first
label, passing a `Section` (or `None`) to `dict.update`, which raises
`TypeError`; with no value the empty `sections` dict makes the method a
no-op. -/
def ebsSettingsToFile (ref : SectionMap) (v : PValue) (t : Tree) (st : ConfigState) :
    Except String ConfigState :=
  if pyTruthy v then
    match v with
    | .str s =>
        match pySplit ',' s with
        | [] => .ok st
        | lbl :: _ => dictUpdateWithSection (getSection t ref.key (pyStrip lbl))
    | _ => .error "AttributeError: object has no attribute split"
  else .ok st

/-! ## Encoding to CFN (`to_cfn`) for the conditional `MinSize` pair -/

/-- `MaintainInitialSizeParam.to_cfn`: for a traditional scheduler the
`MinSize` slot receives `initial_queue_size` when
`maintain_initial_size` is truthy and `"0"` otherwise; for `awsbatch`
nothing is emitted. (`self.pcluster_config.get_section(self.section_key)`
is the given cluster section.) -/
def maintainInitToCfn (cfnName : String) (cluster : SectionI) :
    Except String (List (String × String)) := do
  let sched ← getParamE cluster "scheduler"
  if !pyEq sched (.str "awsbatch") then do
    let cfnValue ← getParamE cluster "maintain_initial_size"
    if pyTruthy cfnValue then do
      let iqs ← getParamE cluster "initial_queue_size"
      .ok [(cfnName, pyStr iqs)]
    else .ok [(cfnName, "0")]
  else .ok []

/-- `MinSizeParam.to_cfn`: for `awsbatch` the `MinSize` slot receives
`min_vcpus`; otherwise nothing is emitted. -/
def minSizeToCfn (cfnName : String) (cluster : SectionI) :
    Except String (List (String × String)) := do
  let sched ← getParamE cluster "scheduler"
  if pyEq sched (.str "awsbatch") then do
    let mv ← getParamE cluster "min_vcpus"
    .ok [(cfnName, pyStr mv)]
  else .ok []

/-! ## `EBSSettingsParam`: CFN codec -/

/-- Python dict insert/overwrite for a generic association list (the
`OrderedDict` used by `EBSSettingsParam.to_cfn`). -/
def assocUpdate {β : Type} (ps : List (String × β)) (key : String) (v : β) :
    List (String × β) :=
  if ps.any (fun kv => kv.1 = key) then
    ps.map (fun kv => if kv.1 = key then (key, v) else kv)
  else ps ++ [(key, v)]

/-- Label gathering of `EBSSettingsParam.to_cfn`: one `OrderedDict`
entry per comma-separated label (keyed by the raw label, the section
looked up under the stripped label; a label absent from the tree stores
`None`). -/
def ebsGather (t : Tree) (refKey : String) (labels : List String) :
    List (String × Option SectionI) :=
  labels.foldl (fun acc l => assocUpdate acc l (getSection t refKey (pyStrip l))) []

/-- Per-instance encoded values of one field
(`param.to_cfn().get(cfn_converter)` per gathered section); a `None`
section raises `AttributeError` at `section.get_param`. -/
def ebsValueList (pm : ParamMap) : List (String × Option SectionI) → Except String (List String)
  | [] => .ok []
  | (_, Option.none) :: _ => .error "AttributeError: NoneType object has no attribute get_param"
  | (_, some sec) :: rest => do
      let v ← getParamE sec pm.key
      let vs ← ebsValueList pm rest
      .ok (getCfnValue pm.ltype pm.dflt v :: vs)

/-- Fixed maximum cardinality in `EBSSettingsParam.to_cfn`. -/
def maxNumberOfEbsVolumes : Nat := 5

/-- Field loop of `EBSSettingsParam.to_cfn`: for each schema field with
a `cfn` slot (skipping `shared_dir` when no volume section exists),
gather the per-instance encodings, right-pad with the default-parameter
encoding up to the fixed maximum, and comma-join. -/
def ebsCfnLoop (sections : List (String × Option SectionI)) :
    List ParamMap → List (String × String) → Except String (List (String × String))
  | [], acc => .ok acc
  | pm :: rest, acc =>
      if sections.length = 0 && pm.key = "shared_dir" then ebsCfnLoop sections rest acc
      else
        match pm.cfn with
        | Option.none => ebsCfnLoop sections rest acc
        | some c => do
            let vals ← ebsValueList pm sections
            let dEnc := getCfnValue pm.ltype pm.dflt (initFromMapValue pm.ltype pm.dflt)
            let padded := vals ++ List.replicate (maxNumberOfEbsVolumes - sections.length) dEnc
            ebsCfnLoop sections rest (assocUpdate acc c (pyJoin "," padded))

/-- `EBSSettingsParam.to_cfn`. -/
def ebsSettingsToCfn (ref : SectionMap) (v : PValue) (t : Tree) :
    Except String (List (String × String)) := do
  let sections : List (String × Option SectionI) :=
    if pyTruthy v then
      match v with
      | .str s => ebsGather t ref.key (pySplit ',' s)
      | _ => []
    else []
  let cfnParams ← ebsCfnLoop sections ref.params []
  .ok (assocUpdate cfnParams "NumberOfEBSVol" (toString (max sections.length 1)))

/-- Per-index field loop of `EBSSettingsParam._init_from_cfn`: decode
each field with a `cfn` slot positionally from that slot's comma list
(an out-of-range index raising `IndexError`), overwrite the
default-built section, and record whether any decoded field differs
from its raw map default. -/
def ebsIndexParamLoop (m : CfnParams) (i : Nat) :
    List ParamMap → SectionI → Bool → Except String (SectionI × Bool)
  | [], sec, conf => .ok (sec, conf)
  | pm :: rest, sec, conf =>
      match pm.cfn with
      | Option.none => ebsIndexParamLoop m i rest sec conf
      | some c => do
          let parts := pySplit ',' (getCfnParam m c)
          match parts.get? i with
          | Option.none => .error "IndexError: list index out of range"
          | some cfnValue => do
              let v ← paramInitFromCfnValue pm cfnValue
              ebsIndexParamLoop m i rest
                { sec with params := addParam sec.params pm.key v }
                (conf || !pyEq v pm.dflt)

/-- Decode of one synthesized EBS instance: an empty (default-built)
section refined field by field. -/
def ebsIndexDecode (ref : SectionMap) (m : CfnParams) (i : Nat) (label : String) :
    Except String (SectionI × Bool) :=
  ebsIndexParamLoop m i ref.params (sectionInitFromMap ref (some label)) false

/-- Index loop of `EBSSettingsParam._init_from_cfn`: the label
`<kind><index+1>` is always recorded; the section is added to the tree
only when some decoded field differs from its default. -/
def ebsInitLoop (ref : SectionMap) (m : CfnParams) :
    List Nat → List String → Tree → Except String (List String × Tree)
  | [], labels, t => .ok (labels, t)
  | i :: rest, labels, t => do
      let label := ref.key ++ toString (i + 1)
      let (sec, conf) ← ebsIndexDecode ref m i label
      ebsInitLoop ref m rest (labels ++ [label]) (if conf then addSectionT t sec else t)

/-- `EBSSettingsParam._init_from_cfn`: volume sections are decoded from
the `NumberOfEBSVol` count slot only when it exceeds 1 ("only if there
are more than one ebs (the default one)"); the settings value becomes
the comma list of synthesized labels, `None` when there are none. -/
def ebsSettingsInitFromCfn (ref : SectionMap) (m : CfnParams) (t : Tree) :
    Except String (PValue × Tree) :=
  if m ≠ [] then
    match pyInt? (getCfnParam m "NumberOfEBSVol") with
    | Option.none => .error "ValueError: invalid literal for int()"
    | some numOfEbs =>
        if numOfEbs > 1 then do
          let (labels, t) ← ebsInitLoop ref m (List.range numOfEbs.toNat) [] t
          .ok (if labels ≠ [] then (.str (pyJoin "," labels), t)
            else (.none, t))
        else .ok (.none, t)
  else .ok (.none, t)

/-! ## Cluster section: construction and file encoding

The `ClusterSection` instance is the only section whose parameters
include settings indirections; constructing it can create further
sections in the tree. -/

/-- `SettingsParam._init_from_map`: a settings parameter with a default
label auto-materializes the referred section with all-default values
(a comma in the default label being fatal). -/
def settingsInitFromMap (key : String) (ref : SectionMap) (dflt : PValue) (t : Tree) :
    Except String (PValue × Tree) :=
  match dflt with
  | .str v =>
      if v ≠ "" then
        if v.toList.contains ',' then
          .error ("The default value of \x27" ++ key ++ "\x27 parameter is invalid. "
            ++ "It can only contains a single " ++ ref.key ++ " section label.")
        else .ok (.str v, addSectionT t (sectionInitFromMap ref (some v)))
      else .ok (.str v, t)
  | d => .ok (d, t)

/-- `SettingsParam._init_from_file`: a present settings key with a
single label decodes the referred section from the file (fatally when
its block is absent) and adds it to the tree; a missing key falls back
to `_init_from_map`. -/
def settingsInitFromFile (parentName key : String) (ref : SectionMap) (dflt : PValue)
    (cfg : ConfigFile) (t : Tree) : Except String (PValue × Tree) :=
  match fileGet cfg parentName key with
  | some v =>
      if v ≠ "" then
        if v.toList.contains ',' then
          .error ("The value of \x27" ++ key ++ "\x27 parameter is invalid. "
            ++ "It can only contains a single " ++ ref.key ++ " section label.")
        else do
          let sec ← sectionInitFromFile ref (some v) true cfg
          .ok (.str v, addSectionT t sec)
      else .ok (.str v, t)
  | Option.none => settingsInitFromMap key ref dflt t

/-- `EBSSettingsParam._init_from_file`: each comma-separated label's
section is decoded from the file (fatally when absent); a missing key
falls back to the inherited `SettingsParam._init_from_map`. -/
def ebsSettingsInitFromFile (parentName key : String) (ref : SectionMap) (dflt : PValue)
    (cfg : ConfigFile) (t : Tree) : Except String (PValue × Tree) :=
  match fileGet cfg parentName key with
  | some v =>
      if v ≠ "" then do
        let t ← (pySplit ',' v).foldlM (fun t l => do
          let sec ← sectionInitFromFile ref (some (pyStrip l)) true cfg
          Except.ok (addSectionT t sec)) t
        .ok (.str v, t)
      else .ok (.str v, t)
  | Option.none => settingsInitFromMap key ref dflt t

/-- Construction of one cluster parameter from the map defaults. -/
def clusterParamInitFromMap (cp : CParamMap) (t : Tree) : Except String (PValue × Tree) :=
  match cp.kind with
  | .leaf lt => .ok (initFromMapValue lt cp.dflt, t)
  | .settings ref => settingsInitFromMap cp.key ref cp.dflt t
  | .ebsSettings ref => settingsInitFromMap cp.key ref cp.dflt t

/-- `ClusterSection` built from defaults
(`Section._init_params_from_map`): returns the section and the tree
with the auto-materialized referred sections added. -/
def clusterInitFromMap (t : Tree) : Except String (SectionI × Tree) := do
  let r ← CLUSTER.foldlM
    (fun (acc : List (String × PValue) × Tree) cp => do
      let (v, t) ← clusterParamInitFromMap cp acc.2
      Except.ok (addParam acc.1 cp.key v, t))
    (([], t) : List (String × PValue) × Tree)
  .ok (⟨"cluster", clusterLabel, r.1⟩, r.2)

/-- Construction of one cluster parameter from the config file. -/
def clusterParamInitFromFile (sname : String) (cp : CParamMap) (cfg : ConfigFile)
    (t : Tree) : Except String (PValue × Tree) :=
  match cp.kind with
  | .leaf lt => do
      let v ← paramInitFromFile sname (leafMapOf cp lt) cfg
      .ok (v, t)
  | .settings ref => settingsInitFromFile sname cp.key ref cp.dflt cfg t
  | .ebsSettings ref => ebsSettingsInitFromFile sname cp.key ref cp.dflt cfg t

/-- Keys of a cluster file block not declared by the `CLUSTER` schema. -/
def clusterUndeclaredKeys (items : List (String × String)) : List String :=
  (items.filter (fun kv => !CLUSTER.any (fun cp => cp.key = kv.1))).map (fun kv => kv.1)

/-- Loop of `Section._init_params_from_file` for the cluster section. -/
def clusterFileLoop (sname : String) (cfg : ConfigFile) :
    List CParamMap → List (String × PValue) → Tree →
    Except String (List (String × PValue) × Tree)
  | [], acc, t => .ok (acc, t)
  | cp :: rest, acc, t => do
      let (v, t) ← clusterParamInitFromFile sname cp cfg t
      let acc := addParam acc cp.key v
      let bad := clusterUndeclaredKeys (fileItems cfg sname)
      if bad ≠ [] then .error (notAllowedMsg bad sname)
      else clusterFileLoop sname cfg rest acc t

/-- `ClusterSection.__init__` with a `config_parser`. -/
def clusterInitFromFile (cfg : ConfigFile) (t : Tree) (failOnAbsence : Bool) :
    Except String (SectionI × Tree) :=
  let sname := fileSectionName "cluster" clusterLabel
  if hasSection cfg sname then do
    let r ← clusterFileLoop sname cfg CLUSTER [] t
    .ok (⟨"cluster", clusterLabel, r.1⟩, r.2)
  else if failOnAbsence then
    .error ("Section \x27[" ++ sname ++ "]\x27 not found in the config file.")
  else clusterInitFromMap t

/-- `to_file` of one cluster parameter, dispatching to the settings
variants where applicable. -/
def clusterParamToFile (sname : String) (cp : CParamMap) (v : PValue) (t : Tree)
    (st : ConfigState) : Except String ConfigState :=
  match cp.kind with
  | .leaf lt => paramToFile sname (leafMapOf cp lt) v t st
  | .settings ref => settingsToFile sname cp.key ref v t st
  | .ebsSettings ref => ebsSettingsToFile ref v t st

/-- Loop of `Section.to_file` for the cluster section (same sparse
header rule as `sectionToFileLoop`). -/
def clusterToFileLoop (sname : String) (sec : SectionI) (t : Tree) :
    List CParamMap → Bool → ConfigState → Except String ConfigState
  | [], _, st => .ok st
  | cp :: rest, created, st => do
      let v ← getParamE sec cp.key
      let (created, st) :=
        if !created && !pyEq v cp.dflt then (true, csAddSection st sname)
        else (created, st)
      let st ← clusterParamToFile sname cp v t st
      clusterToFileLoop sname sec t rest created st

/-- `Section.to_file` for the cluster section. -/
def clusterToFile (sec : SectionI) (t : Tree) (st : ConfigState) :
    Except String ConfigState :=
  clusterToFileLoop (fileSectionName "cluster" sec.label) sec t CLUSTER false st

/-- Raw schema default of a `CLUSTER` parameter
(`map.get("default", None)`). -/
def clusterDflt (key : String) : PValue :=
  ((CLUSTER.find? (fun cp => cp.key = key)).map (fun cp => cp.dflt)).getD .none

end CfnCluster

deriving instance DecidableEq for Except

namespace CfnCluster

/-- Reduction of a successful monadic bind on `Except` (helper simp
lemma for the proofs below). -/
theorem ok_bind {ε α β : Type} (a : α) (f : α → Except ε β) :
    (Except.ok a : Except ε α) >>= f = f a := rfl

/-- Reduction of a failed monadic bind on `Except`. -/
theorem error_bind {ε α β : Type} (e : ε) (f : α → Except ε β) :
    (Except.error e : Except ε α) >>= f = Except.error e := rfl

/-- Reduction of `Except.map` on a success. -/
theorem map_ok {ε α β : Type} (a : α) (f : α → β) :
    (Except.ok a : Except ε α).map f = Except.ok (f a) := rfl

/-- Reduction of `Except.bind` (the bare function) on a success. -/
theorem okE_bind {ε α β : Type} (a : α) (f : α → Except ε β) :
    (Except.ok a : Except ε α).bind f = f a := rfl

/-- Reduction of `Except.bind` (the bare function) on a failure. -/
theorem errorE_bind {ε α β : Type} (e : ε) (f : α → Except ε β) :
    (Except.error e : Except ε α).bind f = Except.error e := rfl

/-! ## Claim C1: discriminant projection of the `DesiredSize` slot -/

/-- C1: decoding a deployment mapping with `Scheduler=awsbatch` and
`DesiredSize=7` makes `desired_vcpus` read 7 from the slot while
`initial_queue_size` keeps its schema default; with any traditional
scheduler the roles swap (`initial_queue_size = 7`, `desired_vcpus` at
its schema default). The two parameter instances are built
independently by `ClusterSection._init_params_from_cfn`, so the tree's
values are exactly these. -/
theorem c1_desired_size_discriminant_projection (m : CfnParams) (sch : String)
    (hsch : getCfnParam m "Scheduler" = sch)
    (hsize : getCfnParam m "DesiredSize" = "7") :
    (sch = "awsbatch" →
      desiredSizeInitFromCfn "desired_vcpus" (clusterDflt "desired_vcpus")
          (some "DesiredSize") m = .int 7 ∧
      desiredSizeInitFromCfn "initial_queue_size" (clusterDflt "initial_queue_size")
          (some "DesiredSize") m = clusterDflt "initial_queue_size")
    ∧ (sch ≠ "awsbatch" →
      desiredSizeInitFromCfn "initial_queue_size" (clusterDflt "initial_queue_size")
          (some "DesiredSize") m = .int 7 ∧
      desiredSizeInitFromCfn "desired_vcpus" (clusterDflt "desired_vcpus")
          (some "DesiredSize") m = clusterDflt "desired_vcpus") := by
  constructor
  · intro h
    subst h
    simp [desiredSizeInitFromCfn, hsch, hsize]
    decide
  · intro h
    simp [desiredSizeInitFromCfn, hsch, hsize, h]
    decide

/-- Witness for C1 at concrete mappings for both discriminant values. -/
theorem c1_witness :
    (desiredSizeInitFromCfn "desired_vcpus" (clusterDflt "desired_vcpus")
        (some "DesiredSize") [("Scheduler", "awsbatch"), ("DesiredSize", "7")] = .int 7)
    ∧ (desiredSizeInitFromCfn "initial_queue_size" (clusterDflt "initial_queue_size")
        (some "DesiredSize") [("Scheduler", "slurm"), ("DesiredSize", "7")] = .int 7) :=
  ⟨((c1_desired_size_discriminant_projection
      [("Scheduler", "awsbatch"), ("DesiredSize", "7")] "awsbatch" rfl rfl).1 rfl).1,
   ((c1_desired_size_discriminant_projection
      [("Scheduler", "slurm"), ("DesiredSize", "7")] "slurm" rfl rfl).2 (by decide)).1⟩

/-! ## Claim C3: type-coercion failure behaviour -/

/-- C3 counterexample: materializing `initial_queue_size` from a
deployment mapping whose `DesiredSize` slot holds the unparseable text
`abc` does not fail — it silently substitutes the schema default 0
(`except ValueError: pass` in `IntParam.get_value_from_string`),
contradicting the claim that coercion failure is always fatal. -/
theorem c3_counterexample :
    pyInt? "abc" = Option.none
    ∧ desiredSizeInitFromCfn "initial_queue_size" (clusterDflt "initial_queue_size")
        (some "DesiredSize") [("Scheduler", "sge"), ("DesiredSize", "abc")]
        = clusterDflt "initial_queue_size"
    ∧ getValueFromString "initial_queue_size" .intP (.int 0) "abc"
        = .ok (.int 0) := by decide

/-- C3 (amended): deployment-slot text failing int/float coercion
silently yields the schema default and bool deployment text never fails
(it is the comparison with `"true"`); file text failing coercion is
fatal with a message naming the parameter key (but not the offending
text). -/
theorem c3_amended_coercion_behaviour (pm : ParamMap) (sname text : String)
    (cfg : ConfigFile) (d : PValue) (s : String) :
    (pyInt? (pyStrip s) = Option.none → pyStrip s ≠ "NONE" →
      intValueFromString d s = d)
    ∧ (pyFloat? (pyStrip s) = Option.none → pyStrip s ≠ "NONE" →
      floatValueFromString d s = d)
    ∧ (pyStrip s ≠ "NONE" → boolValueFromString d s = .bool (pyStrip s == "true"))
    ∧ (pm.ltype = .intP → fileGet cfg sname pm.key = some text →
      pyInt? text = Option.none →
      paramInitFromFile sname pm cfg
        = .error ("Configuration parameter \x27" ++ pm.key ++ "\x27 must be an Integer"))
    ∧ (pm.ltype = .floatP → fileGet cfg sname pm.key = some text →
      pyFloat? text = Option.none →
      paramInitFromFile sname pm cfg
        = .error ("Configuration parameter \x27" ++ pm.key ++ "\x27 must be a Float"))
    ∧ (pm.ltype = .boolP → fileGet cfg sname pm.key = some text →
      configBool? text = Option.none →
      paramInitFromFile sname pm cfg
        = .error ("Configuration parameter \x27" ++ pm.key ++ "\x27 must be a Boolean")) := by
  obtain ⟨key, lt, dflt, cfn, allowed⟩ := pm
  refine ⟨?_, ?_, ?_, ?_, ?_, ?_⟩
  · intro h1 h2
    simp [intValueFromString, pyStrip] at *
    simp [h1, h2]
  · intro h1 h2
    simp [floatValueFromString, pyStrip] at *
    simp [h1, h2]
  · intro h1
    simp [boolValueFromString, pyStrip] at *
    simp [h1]
  · intro hlt hget hpy
    simp at hlt
    subst hlt
    simp [paramInitFromFile, hget, hpy]
  · intro hlt hget hpy
    simp at hlt
    subst hlt
    simp [paramInitFromFile, hget, hpy]
  · intro hlt hget hpy
    simp at hlt
    subst hlt
    simp [paramInitFromFile, hget, hpy]

/-- Witness for C3 (amended) at concrete inputs: slot text `abc` for
`initial_queue_size` (silent default) and file text `abc` for
`scaledown_idletime` (fatal, named key). -/
theorem c3_amended_witness :
    intValueFromString (.int 0) "abc" = .int 0
    ∧ paramInitFromFile "scaling default"
        ⟨"scaledown_idletime", .intP, .int 10, some "ScaleDownIdleTime", .noRestriction⟩
        ⟨[("scaling default", [("scaledown_idletime", "abc")])]⟩
        = .error "Configuration parameter \x27scaledown_idletime\x27 must be an Integer" :=
  ⟨(c3_amended_coercion_behaviour
      ⟨"scaledown_idletime", .intP, .int 10, some "ScaleDownIdleTime", .noRestriction⟩
      "scaling default" "abc" ⟨[("scaling default", [("scaledown_idletime", "abc")])]⟩
      (.int 0) "abc").1 (by decide) (by decide),
   ((c3_amended_coercion_behaviour
      ⟨"scaledown_idletime", .intP, .int 10, some "ScaleDownIdleTime", .noRestriction⟩
      "scaling default" "abc" ⟨[("scaling default", [("scaledown_idletime", "abc")])]⟩
      (.int 0) "abc").2.2.2.1 rfl (by decide) (by decide))⟩

/-! ## Claim C2: fixed-width padding of the EBS deployment encoding -/

/-- EBS volume Section instance carrying the full schema key set in
schema order (the shape every constructed EBS section has, see C10). -/
def mkEbsSection (label : String) (a1 a2 a3 a4 a5 a6 a7 a8 : PValue) : SectionI :=
  ⟨"ebs", label, [("shared_dir", a1), ("ebs_snapshot_id", a2), ("volume_type", a3),
    ("volume_size", a4), ("volume_iops", a5), ("encrypted", a6),
    ("ebs_kms_key_id", a7), ("ebs_volume_id", a8)]⟩

/-- Parameter map of the EBS schema under a given key. -/
def ebsPm (key : String) : ParamMap :=
  (EBS.params.find? (fun pm => pm.key = key)).getD
    ⟨key, .plain, .none, Option.none, .noRestriction⟩

/-- Deployment encoding of one EBS field value
(`param.to_cfn().get(cfn_converter)`). -/
def ebsEnc (key : String) (v : PValue) : String :=
  getCfnValue (ebsPm key).ltype (ebsPm key).dflt v

/-- Deployment encoding of an EBS field's schema default (the padding
entry built from a default-constructed parameter). -/
def ebsDfltEnc (key : String) : String :=
  ebsEnc key (initFromMapValue (ebsPm key).ltype (ebsPm key).dflt)

set_option maxHeartbeats 2000000 in
/-- C2: encoding `ebs_settings = vol1,vol2` with both sections
materialized emits, for every EBS field (all of which carry a
deployment-slot name), a comma join of exactly 5 entries — the two
instances' encodings in label order followed by 3 copies of the
schema-default encoding — plus the count slot `NumberOfEBSVol = "2"`. -/
theorem c2_ebs_fixed_width_padding (t : Tree)
    (a1 a2 a3 a4 a5 a6 a7 a8 b1 b2 b3 b4 b5 b6 b7 b8 : PValue)
    (h1 : getSection t "ebs" "vol1" = some (mkEbsSection "vol1" a1 a2 a3 a4 a5 a6 a7 a8))
    (h2 : getSection t "ebs" "vol2" = some (mkEbsSection "vol2" b1 b2 b3 b4 b5 b6 b7 b8)) :
    ebsSettingsToCfn EBS (.str "vol1,vol2") t = .ok
      ([("SharedDir", pyJoin "," ([ebsEnc "shared_dir" a1, ebsEnc "shared_dir" b1]
          ++ List.replicate 3 (ebsDfltEnc "shared_dir"))),
        ("EBSSnapshotId", pyJoin "," ([ebsEnc "ebs_snapshot_id" a2, ebsEnc "ebs_snapshot_id" b2]
          ++ List.replicate 3 (ebsDfltEnc "ebs_snapshot_id"))),
        ("VolumeType", pyJoin "," ([ebsEnc "volume_type" a3, ebsEnc "volume_type" b3]
          ++ List.replicate 3 (ebsDfltEnc "volume_type"))),
        ("VolumeSize", pyJoin "," ([ebsEnc "volume_size" a4, ebsEnc "volume_size" b4]
          ++ List.replicate 3 (ebsDfltEnc "volume_size"))),
        ("VolumeIOPS", pyJoin "," ([ebsEnc "volume_iops" a5, ebsEnc "volume_iops" b5]
          ++ List.replicate 3 (ebsDfltEnc "volume_iops"))),
        ("EBSEncryption", pyJoin "," ([ebsEnc "encrypted" a6, ebsEnc "encrypted" b6]
          ++ List.replicate 3 (ebsDfltEnc "encrypted"))),
        ("EBSKMSKeyId", pyJoin "," ([ebsEnc "ebs_kms_key_id" a7, ebsEnc "ebs_kms_key_id" b7]
          ++ List.replicate 3 (ebsDfltEnc "ebs_kms_key_id"))),
        ("EBSVolumeId", pyJoin "," ([ebsEnc "ebs_volume_id" a8, ebsEnc "ebs_volume_id" b8]
          ++ List.replicate 3 (ebsDfltEnc "ebs_volume_id")))]
        ++ [("NumberOfEBSVol", "2")]) := by
  have hg : ebsGather t "ebs" (pySplit ',' "vol1,vol2")
      = [("vol1", some (mkEbsSection "vol1" a1 a2 a3 a4 a5 a6 a7 a8)),
         ("vol2", some (mkEbsSection "vol2" b1 b2 b3 b4 b5 b6 b7 b8))] := by
    rw [show pySplit ',' "vol1,vol2" = ["vol1", "vol2"] from rfl]
    simp [ebsGather, assocUpdate, pyStrip, h1, h2]
  simp only [ebsSettingsToCfn, pyTruthy]
  rw [show (decide (("vol1,vol2" : String) ≠ "")) = true from rfl]
  simp only [if_true, reduceIte]
  rw [show EBS.key = "ebs" from rfl, hg]
  simp [EBS, ebsCfnLoop, ebsValueList, getParamE, assocUpdate, mkEbsSection,
    ebsPm, ebsEnc, ebsDfltEnc, ok_bind, errorE_bind, okE_bind, map_ok,
    List.lookup, initFromMapValue, getDefaultValue, maxNumberOfEbsVolumes]
  rfl

/-- Witness for C2 at a concrete pair of volume sections. -/
theorem c2_witness :
    ebsSettingsToCfn EBS (.str "vol1,vol2")
      [mkEbsSection "vol1" (.str "/v1") .none (.str "gp2") (.int 30) (.int 100)
        (.bool false) .none .none,
       mkEbsSection "vol2" (.str "/v2") .none (.str "io1") (.int 20) (.int 100)
        (.bool true) .none .none] = .ok
      ([("SharedDir", pyJoin "," ([ebsEnc "shared_dir" (.str "/v1"), ebsEnc "shared_dir" (.str "/v2")]
          ++ List.replicate 3 (ebsDfltEnc "shared_dir"))),
        ("EBSSnapshotId", pyJoin "," ([ebsEnc "ebs_snapshot_id" .none, ebsEnc "ebs_snapshot_id" .none]
          ++ List.replicate 3 (ebsDfltEnc "ebs_snapshot_id"))),
        ("VolumeType", pyJoin "," ([ebsEnc "volume_type" (.str "gp2"), ebsEnc "volume_type" (.str "io1")]
          ++ List.replicate 3 (ebsDfltEnc "volume_type"))),
        ("VolumeSize", pyJoin "," ([ebsEnc "volume_size" (.int 30), ebsEnc "volume_size" (.int 20)]
          ++ List.replicate 3 (ebsDfltEnc "volume_size"))),
        ("VolumeIOPS", pyJoin "," ([ebsEnc "volume_iops" (.int 100), ebsEnc "volume_iops" (.int 100)]
          ++ List.replicate 3 (ebsDfltEnc "volume_iops"))),
        ("EBSEncryption", pyJoin "," ([ebsEnc "encrypted" (.bool false), ebsEnc "encrypted" (.bool true)]
          ++ List.replicate 3 (ebsDfltEnc "encrypted"))),
        ("EBSKMSKeyId", pyJoin "," ([ebsEnc "ebs_kms_key_id" .none, ebsEnc "ebs_kms_key_id" .none]
          ++ List.replicate 3 (ebsDfltEnc "ebs_kms_key_id"))),
        ("EBSVolumeId", pyJoin "," ([ebsEnc "ebs_volume_id" .none, ebsEnc "ebs_volume_id" .none]
          ++ List.replicate 3 (ebsDfltEnc "ebs_volume_id")))]
        ++ [("NumberOfEBSVol", "2")]) :=
  c2_ebs_fixed_width_padding
    [mkEbsSection "vol1" (.str "/v1") .none (.str "gp2") (.int 30) (.int 100)
      (.bool false) .none .none,
     mkEbsSection "vol2" (.str "/v2") .none (.str "io1") (.int 20) (.int 100)
      (.bool true) .none .none]
    (.str "/v1") .none (.str "gp2") (.int 30) (.int 100) (.bool false) .none .none
    (.str "/v2") .none (.str "io1") (.int 20) (.int 100) (.bool true) .none .none
    rfl rfl

/-! ## Claim C4: encoding the `MinSize` slot -/

/-- C4: the `MinSize` deployment slot receives exactly one value from
the pair `MaintainInitialSizeParam.to_cfn` / `MinSizeParam.to_cfn`:
`initial_queue_size` when the scheduler is traditional and
`maintain_initial_size` is true, `min_vcpus` when the scheduler is
`awsbatch`, and `0` otherwise. -/
theorem c4_min_size_slot (cluster : SectionI) (sch : String) (b : Bool) (iq mv : Int)
    (hs : cluster.params.lookup "scheduler" = some (.str sch))
    (hm : cluster.params.lookup "maintain_initial_size" = some (.bool b))
    (hi : cluster.params.lookup "initial_queue_size" = some (.int iq))
    (hv : cluster.params.lookup "min_vcpus" = some (.int mv)) :
    (maintainInitToCfn "MinSize" cluster).bind
      (fun a => (minSizeToCfn "MinSize" cluster).map (fun c => a ++ c))
      = .ok [("MinSize",
          if sch = "awsbatch" then pyStr (.int mv)
          else if b then pyStr (.int iq) else "0")] := by
  by_cases hsch : sch = "awsbatch" <;>
    cases b <;>
      simp [maintainInitToCfn, minSizeToCfn, getParamE, hs, hm, hi, hv, pyEq, pyTruthy,
        hsch, ok_bind, error_bind, map_ok, okE_bind, errorE_bind]

/-- Witness for C4 applying the theorem in all three regimes. -/
theorem c4_witness :
    ((maintainInitToCfn "MinSize" ⟨"cluster", "default",
        [("scheduler", .str "slurm"), ("maintain_initial_size", .bool true),
         ("initial_queue_size", .int 5), ("min_vcpus", .int 2)]⟩).bind
      (fun a => (minSizeToCfn "MinSize" ⟨"cluster", "default",
        [("scheduler", .str "slurm"), ("maintain_initial_size", .bool true),
         ("initial_queue_size", .int 5), ("min_vcpus", .int 2)]⟩).map (fun c => a ++ c))
      = .ok [("MinSize", "5")])
    ∧ ((maintainInitToCfn "MinSize" ⟨"cluster", "default",
        [("scheduler", .str "awsbatch"), ("maintain_initial_size", .bool true),
         ("initial_queue_size", .int 5), ("min_vcpus", .int 2)]⟩).bind
      (fun a => (minSizeToCfn "MinSize" ⟨"cluster", "default",
        [("scheduler", .str "awsbatch"), ("maintain_initial_size", .bool true),
         ("initial_queue_size", .int 5), ("min_vcpus", .int 2)]⟩).map (fun c => a ++ c))
      = .ok [("MinSize", "2")])
    ∧ ((maintainInitToCfn "MinSize" ⟨"cluster", "default",
        [("scheduler", .str "slurm"), ("maintain_initial_size", .bool false),
         ("initial_queue_size", .int 5), ("min_vcpus", .int 2)]⟩).bind
      (fun a => (minSizeToCfn "MinSize" ⟨"cluster", "default",
        [("scheduler", .str "slurm"), ("maintain_initial_size", .bool false),
         ("initial_queue_size", .int 5), ("min_vcpus", .int 2)]⟩).map (fun c => a ++ c))
      = .ok [("MinSize", "0")]) :=
  ⟨c4_min_size_slot _ "slurm" true 5 2 rfl rfl rfl rfl,
   c4_min_size_slot _ "awsbatch" true 5 2 rfl rfl rfl rfl,
   c4_min_size_slot _ "slurm" false 5 2 rfl rfl rfl rfl⟩

/-- Total value of `paramInitFromCfnValue` for the string/int/bool
parameter kinds (the kinds appearing in the EBS schema). -/
def ebsFieldVal (pm : ParamMap) (x : String) : PValue :=
  if x ≠ "" then
    match pm.ltype with
    | .plain => strValueFromString pm.dflt x
    | .intP => intValueFromString pm.dflt x
    | .boolP => boolValueFromString pm.dflt x
    | _ => .none
  else initFromMapValue pm.ltype pm.dflt

theorem paramInitFromCfnValue_ebs (pm : ParamMap) (x : String)
    (h : pm.ltype = .plain ∨ pm.ltype = .intP ∨ pm.ltype = .boolP) :
    paramInitFromCfnValue pm x = .ok (ebsFieldVal pm x) := by
  rcases h with h | h | h
  all_goals simp only [paramInitFromCfnValue, getValueFromString, ebsFieldVal, h]
  all_goals split
  all_goals rfl

/-- Positionally decoded value of one EBS field at a given index. -/
def ebsDecodedField (m : CfnParams) (i : Nat) (pm : ParamMap) : PValue :=
  match pm.cfn with
  | some c => ebsFieldVal pm (((pySplit ',' (getCfnParam m c)).get? i).getD "")
  | Option.none => initFromMapValue pm.ltype pm.dflt

theorem ebsIndexParamLoop_spec (m : CfnParams) (i : Nat) :
    ∀ (pms : List ParamMap),
    (∀ pm ∈ pms, pm.ltype = .plain ∨ pm.ltype = .intP ∨ pm.ltype = .boolP) →
    (∀ pm ∈ pms, ∀ c, pm.cfn = some c → i < (pySplit ',' (getCfnParam m c)).length) →
    ∀ (sec : SectionI) (conf : Bool),
    ebsIndexParamLoop m i pms sec conf = .ok
      (⟨sec.key, sec.label,
        pms.foldl (fun ps pm => match pm.cfn with
          | some _ => addParam ps pm.key (ebsDecodedField m i pm)
          | Option.none => ps) sec.params⟩,
       pms.foldl (fun b pm =>
          b || (pm.cfn.isSome && !pyEq (ebsDecodedField m i pm) pm.dflt)) conf)
  | [], _, _, sec, conf => by simp [ebsIndexParamLoop]
  | pm :: rest, hk, hw, sec, conf => by
      match hc : pm.cfn with
      | Option.none =>
          simp only [ebsIndexParamLoop, hc, List.foldl_cons, Option.isSome_none,
            Bool.false_and, Bool.or_false]
          exact ebsIndexParamLoop_spec m i rest (fun p hp => hk p (List.mem_cons_of_mem _ hp))
            (fun p hp => hw p (List.mem_cons_of_mem _ hp)) sec conf
      | some c =>
          have hlen := hw pm (List.mem_cons_self _ _) c hc
          have hx : ∃ x, (pySplit ',' (getCfnParam m c)).get? i = some x := by
            cases hget : (pySplit ',' (getCfnParam m c)).get? i with
            | none => exact absurd (List.get?_eq_none.mp hget) (by omega)
            | some x => exact ⟨x, rfl⟩
          obtain ⟨x, hget⟩ := hx
          have hval := paramInitFromCfnValue_ebs pm x (hk pm (List.mem_cons_self _ _))
          have hget' : (pySplit ',' (getCfnParam m c))[i]? = some x := by
            rw [← List.get?_eq_getElem?]; exact hget
          have hfield : ebsDecodedField m i pm = ebsFieldVal pm x := by
            simp [ebsDecodedField, hc, hget']
          simp only [ebsIndexParamLoop, hc, hget, hval, ok_bind, List.foldl_cons,
            Option.isSome_some, Bool.true_and, hfield]
          exact ebsIndexParamLoop_spec m i rest (fun p hp => hk p (List.mem_cons_of_mem _ hp))
            (fun p hp => hw p (List.mem_cons_of_mem _ hp)) _ _

/-- Label synthesized for the EBS instance at a 0-based index. -/
def ebsLabel (i : Nat) : String := "ebs" ++ toString (i + 1)

/-- Declarative form of the Section decoded for one EBS index: every
schema field decoded positionally from its own slot. -/
def ebsDecodedSection (m : CfnParams) (i : Nat) : SectionI :=
  ⟨"ebs", ebsLabel i, EBS.params.map (fun pm => (pm.key, ebsDecodedField m i pm))⟩

/-- Whether some positionally decoded field at the index differs from
its raw schema default. -/
def ebsIndexDiffers (m : CfnParams) (i : Nat) : Bool :=
  EBS.params.foldl (fun b pm =>
    b || (pm.cfn.isSome && !pyEq (ebsDecodedField m i pm) pm.dflt)) false

theorem ebsIndexDecode_spec (m : CfnParams) (i : Nat)
    (hw : ∀ pm ∈ EBS.params, ∀ c, pm.cfn = some c →
      i < (pySplit ',' (getCfnParam m c)).length) :
    ebsIndexDecode EBS m i (ebsLabel i)
      = .ok (ebsDecodedSection m i, ebsIndexDiffers m i) := by
  rw [ebsIndexDecode, ebsIndexParamLoop_spec m i EBS.params (by decide) hw]
  rfl

theorem find?_append_none {α : Type} (p : α → Bool) (l1 l2 : List α)
    (h : l1.find? p = Option.none) : (l1 ++ l2).find? p = l2.find? p := by
  induction l1 with
  | nil => simp
  | cons a l ih =>
      simp only [List.find?] at h ⊢
      cases hp : p a with
      | true => simp [hp] at h
      | false =>
          simp only [hp] at h ⊢
          exact ih h

theorem ebsInitLoop_spec (m : CfnParams) :
    ∀ (idxs : List Nat) (labels : List String) (t : Tree),
    (∀ i ∈ idxs, ebsIndexDecode EBS m i (ebsLabel i)
      = .ok (ebsDecodedSection m i, ebsIndexDiffers m i)) →
    (∀ i ∈ idxs, getSection t "ebs" (ebsLabel i) = Option.none) →
    (idxs.map ebsLabel).Nodup →
    ebsInitLoop EBS m idxs labels t = .ok
      (labels ++ idxs.map ebsLabel,
       t ++ idxs.filterMap (fun i =>
         if ebsIndexDiffers m i then some (ebsDecodedSection m i) else Option.none))
  | [], labels, t, _, _, _ => by simp [ebsInitLoop]
  | i :: rest, labels, t, hdec, ht, hnd => by
      have hstep := hdec i (List.mem_cons_self _ _)
      have hti := ht i (List.mem_cons_self _ _)
      simp only [List.map_cons, List.nodup_cons] at hnd
      obtain ⟨hnotin, hndrest⟩ := hnd
      rw [ebsInitLoop]
      rw [show EBS.key ++ toString (i + 1) = ebsLabel i from rfl]
      simp only [hstep, ok_bind]
      by_cases hd : ebsIndexDiffers m i
      · have hadd : addSectionT t (ebsDecodedSection m i) = t ++ [ebsDecodedSection m i] := by
          rw [addSectionT]
          rw [show (ebsDecodedSection m i).key = "ebs" from rfl,
              show (ebsDecodedSection m i).label = ebsLabel i from rfl, hti]
          simp
        rw [if_pos hd, hadd]
        have ht' : ∀ j ∈ rest, getSection (t ++ [ebsDecodedSection m i]) "ebs" (ebsLabel j)
            = Option.none := by
          intro j hj
          have h1 := ht j (List.mem_cons_of_mem _ hj)
          have hne : ebsLabel i ≠ ebsLabel j := by
            intro hcontra
            exact hnotin (hcontra ▸ List.mem_map_of_mem ebsLabel hj)
          simp only [getSection] at h1 ⊢
          rw [find?_append_none _ _ _ h1]
          simp [List.find?, ebsDecodedSection, hne]
        rw [ebsInitLoop_spec m rest (labels ++ [ebsLabel i]) (t ++ [ebsDecodedSection m i])
          (fun j hj => hdec j (List.mem_cons_of_mem _ hj)) ht' hndrest]
        simp [hd]
      · rw [if_neg hd]
        rw [ebsInitLoop_spec m rest (labels ++ [ebsLabel i]) t
          (fun j hj => hdec j (List.mem_cons_of_mem _ hj))
          (fun j hj => ht j (List.mem_cons_of_mem _ hj)) hndrest]
        simp [hd]

/-- C5 (amended): for a deployment mapping with count slot
`NumberOfEBSVol = n` and `n ≥ 2` (the code's `num_of_ebs > 1` guard),
decoding the ebs settings synthesizes the label `ebs<index+1>` for
every index `0..n-1` (the settings value is their comma join), decodes
each field positionally from its own slot, and materializes a Section
in the tree exactly for the indices where some decoded field differs
from its raw schema default. -/
theorem c5_amended_ebs_decode_from_cfn (m : CfnParams) (t0 : Tree) (n : Nat)
    (hm : m ≠ [])
    (hn : pyInt? (getCfnParam m "NumberOfEBSVol") = some (n : Int))
    (h2 : 2 ≤ n)
    (hslots : ∀ pm ∈ EBS.params, ∀ c, pm.cfn = some c →
      n ≤ (pySplit ',' (getCfnParam m c)).length)
    (ht : ∀ i, getSection t0 "ebs" (ebsLabel i) = Option.none)
    (hnd : ((List.range n).map ebsLabel).Nodup) :
    ebsSettingsInitFromCfn EBS m t0 = .ok
      (.str (pyJoin "," ((List.range n).map ebsLabel)),
       t0 ++ (List.range n).filterMap (fun i =>
         if ebsIndexDiffers m i then some (ebsDecodedSection m i) else Option.none)) := by
  rw [ebsSettingsInitFromCfn, if_pos hm]
  simp only [hn]
  have hgt : (1 : Int) < (n : Int) := by exact_mod_cast (by omega : 1 < n)
  rw [if_pos hgt]
  have htn : ((n : Int)).toNat = n := by simp
  rw [htn]
  have hdec : ∀ i ∈ List.range n, ebsIndexDecode EBS m i (ebsLabel i)
      = .ok (ebsDecodedSection m i, ebsIndexDiffers m i) := fun i hi =>
    ebsIndexDecode_spec m i (fun pm hpm c hc =>
      Nat.lt_of_lt_of_le (List.mem_range.mp hi) (hslots pm hpm c hc))
  rw [ebsInitLoop_spec m (List.range n) [] t0 hdec (fun i _ => ht i) hnd, ok_bind]
  have hne : ([] : List String) ++ (List.range n).map ebsLabel ≠ [] := by
    simp only [List.nil_append, ne_eq, List.map_eq_nil_iff, List.range_eq_nil]
    omega
  simp [hne]
  omega

/-- C5 counterexample: with count slot `NumberOfEBSVol = "1"` the code
decodes nothing — no label is synthesized and no Section materialized
(`if num_of_ebs > 1`), even though the first positional `VolumeSize`
entry (30) differs from the schema default (20); the claim, which
covers every `n ≥ 1`, predicts a materialized `ebs1` Section here. -/
theorem c5_counterexample :
    ebsSettingsInitFromCfn EBS
      [("NumberOfEBSVol", "1"), ("SharedDir", "NONE,NONE,NONE,NONE,NONE"),
       ("EBSSnapshotId", "NONE,NONE,NONE,NONE,NONE"),
       ("VolumeType", "gp2,gp2,gp2,gp2,gp2"), ("VolumeSize", "30,20,20,20,20"),
       ("VolumeIOPS", "100,100,100,100,100"),
       ("EBSEncryption", "false,false,false,false,false"),
       ("EBSKMSKeyId", "NONE,NONE,NONE,NONE,NONE"),
       ("EBSVolumeId", "NONE,NONE,NONE,NONE,NONE")] []
      = .ok (.none, [])
    ∧ intValueFromString (.int 20) "30" = .int 30
    ∧ pyEq (.int 30) (.int 20) = false := by decide

/-- Witness for C5 (amended) at a concrete two-volume mapping. -/
theorem c5_witness :
    ebsSettingsInitFromCfn EBS
      [("NumberOfEBSVol", "2"), ("SharedDir", "/v1,/v2,NONE,NONE,NONE"),
       ("EBSSnapshotId", "NONE,NONE,NONE,NONE,NONE"),
       ("VolumeType", "gp2,io1,gp2,gp2,gp2"), ("VolumeSize", "30,20,20,20,20"),
       ("VolumeIOPS", "100,100,100,100,100"),
       ("EBSEncryption", "false,true,false,false,false"),
       ("EBSKMSKeyId", "NONE,NONE,NONE,NONE,NONE"),
       ("EBSVolumeId", "NONE,NONE,NONE,NONE,NONE")] [] = .ok
      (.str (pyJoin "," ((List.range 2).map ebsLabel)),
       [] ++ (List.range 2).filterMap (fun i =>
         if ebsIndexDiffers [("NumberOfEBSVol", "2"), ("SharedDir", "/v1,/v2,NONE,NONE,NONE"),
             ("EBSSnapshotId", "NONE,NONE,NONE,NONE,NONE"),
             ("VolumeType", "gp2,io1,gp2,gp2,gp2"), ("VolumeSize", "30,20,20,20,20"),
             ("VolumeIOPS", "100,100,100,100,100"),
             ("EBSEncryption", "false,true,false,false,false"),
             ("EBSKMSKeyId", "NONE,NONE,NONE,NONE,NONE"),
             ("EBSVolumeId", "NONE,NONE,NONE,NONE,NONE")] i
           then some (ebsDecodedSection [("NumberOfEBSVol", "2"), ("SharedDir", "/v1,/v2,NONE,NONE,NONE"),
             ("EBSSnapshotId", "NONE,NONE,NONE,NONE,NONE"),
             ("VolumeType", "gp2,io1,gp2,gp2,gp2"), ("VolumeSize", "30,20,20,20,20"),
             ("VolumeIOPS", "100,100,100,100,100"),
             ("EBSEncryption", "false,true,false,false,false"),
             ("EBSKMSKeyId", "NONE,NONE,NONE,NONE,NONE"),
             ("EBSVolumeId", "NONE,NONE,NONE,NONE,NONE")] i)
           else Option.none)) :=
  c5_amended_ebs_decode_from_cfn _ [] 2 (by decide) (by decide) (by decide) (by decide)
    (fun _ => rfl) (by decide)

theorem pySplit_ne_nil (c : Char) (s : String) : pySplit c s ≠ [] := by
  simp only [pySplit, ne_eq, List.map_eq_nil_iff]
  exact List.splitOnP_ne_nil _ _

/-- C8 (code defect): file-encoding a nonempty ebs settings value never
terminates normally — `EBSSettingsParam.to_file` calls
`sections.update(self.pcluster_config.get_section(...))`, passing a
`Section` instance (or `None`) to `dict.update`, neither of which
supports the mapping protocol, so Python raises `TypeError` on the
first label before anything is written; the settings line and the
referred sections never reach the file. -/
theorem c8_ebs_settings_to_file_defect (s : String) (t : Tree) (st : ConfigState) (hs : s ≠ "") :
    ebsSettingsToFile EBS (.str s) t st = .error "TypeError: object is not iterable" := by
  obtain ⟨lbl, rest, hsplit⟩ : ∃ lbl rest, pySplit ',' s = lbl :: rest := by
    cases h : pySplit ',' s with
    | nil => exact absurd h (pySplit_ne_nil ',' s)
    | cons a l => exact ⟨a, l, rfl⟩
  rw [ebsSettingsToFile]
  have hc : pyTruthy (.str s) = true := by simp [pyTruthy, hs]
  rw [hc]
  simp only [if_true]
  rw [hsplit]
  rfl

/-- Witness for C8: the defect fires on the concrete value `vol1` with
its section materialized in the tree. -/
theorem c8_witness :
    ebsSettingsToFile EBS (.str "vol1") [mkEbsSection "vol1" .none .none (.str "gp2")
      (.int 20) (.int 100) (.bool false) .none .none] emptyConfig
      = .error "TypeError: object is not iterable" :=
  c8_ebs_settings_to_file_defect "vol1" _ emptyConfig (by decide)

-- C10 key lemmas
theorem addParam_notMem (ps : List (String × PValue)) (key : String) (v : PValue)
    (h : key ∉ ps.map Prod.fst) : addParam ps key v = ps ++ [(key, v)] := by
  have hc : ps.any (fun kv => kv.1 = key) = false := by
    rw [List.any_eq_false]
    intro kv hkv
    simp only [decide_eq_true_eq]
    intro heq
    exact h (heq ▸ List.mem_map_of_mem Prod.fst hkv)
  rw [addParam, hc]
  simp

theorem lookup_isSome_of_mem_keys {ps : List (String × PValue)} {k : String}
    (h : k ∈ ps.map Prod.fst) : (ps.lookup k).isSome := by
  induction ps with
  | nil => simp at h
  | cons kv rest ih =>
      simp only [List.map_cons, List.mem_cons] at h
      rw [List.lookup]
      by_cases he : k = kv.1
      · simp [he]
      · have hb : (k == kv.1) = false := by simp [he]
        simp only [hb]
        rcases h with h | h
        · exact absurd h he
        · exact ih h

theorem foldMap_keys : ∀ (pms : List ParamMap) (acc : List (String × PValue)),
    (∀ k ∈ pms.map (fun pm => pm.key), k ∉ acc.map Prod.fst) →
    (pms.map (fun pm => pm.key)).Nodup →
    (pms.foldl (fun a pm => addParam a pm.key (initFromMapValue pm.ltype pm.dflt)) acc).map
        Prod.fst
      = acc.map Prod.fst ++ pms.map (fun pm => pm.key)
  | [], acc, _, _ => by simp
  | pm :: rest, acc, hdis, hnd => by
      simp only [List.map_cons, List.nodup_cons] at hnd
      obtain ⟨hnotin, hndrest⟩ := hnd
      have hmem : pm.key ∉ acc.map Prod.fst := hdis pm.key (by simp)
      rw [List.foldl_cons, addParam_notMem _ _ _ hmem]
      rw [foldMap_keys rest (acc ++ [(pm.key, initFromMapValue pm.ltype pm.dflt)])
        (by
          intro k hk
          have h1 := hdis k (List.mem_cons_of_mem _ hk)
          have h2 : k ≠ pm.key := fun he => hnotin (he ▸ hk)
          simp [h1, h2]) hndrest]
      simp

theorem cfnParamsLoop_keys (m : CfnParams) :
    ∀ (pms : List ParamMap) (acc : List (String × PValue)) (ps' : List (String × PValue)),
    sectionCfnParamsLoop m pms acc = .ok ps' →
    (∀ k ∈ pms.map (fun pm => pm.key), k ∉ acc.map Prod.fst) →
    (pms.map (fun pm => pm.key)).Nodup →
    ps'.map Prod.fst = acc.map Prod.fst ++ pms.map (fun pm => pm.key)
  | [], acc, ps', h, _, _ => by
      rw [sectionCfnParamsLoop] at h
      cases h
      simp
  | pm :: rest, acc, ps', h, hdis, hnd => by
      simp only [List.map_cons, List.nodup_cons] at hnd
      obtain ⟨hnotin, hndrest⟩ := hnd
      rw [sectionCfnParamsLoop] at h
      cases hv : paramInitFromCfnParams pm m with
      | error e => rw [hv] at h; simp [error_bind] at h
      | ok v =>
          rw [hv, ok_bind] at h
          have hmem : pm.key ∉ acc.map Prod.fst := hdis pm.key (by simp)
          rw [addParam_notMem _ _ _ hmem] at h
          rw [cfnParamsLoop_keys m rest _ _ h
            (by
              intro k hk
              have h1 := hdis k (List.mem_cons_of_mem _ hk)
              have h2 : k ≠ pm.key := fun he => hnotin (he ▸ hk)
              simp [h1, h2]) hndrest]
          simp

theorem cfnSlotLoop_keys (cfnValues : List String) :
    ∀ (pms : List (Nat × ParamMap)) (acc ps' : List (String × PValue)),
    sectionCfnSlotLoop cfnValues pms acc = .ok ps' →
    (∀ k ∈ pms.map (fun p => p.2.key), k ∉ acc.map Prod.fst) →
    (pms.map (fun p => p.2.key)).Nodup →
    ps'.map Prod.fst = acc.map Prod.fst ++ pms.map (fun p => p.2.key)
  | [], acc, ps', h, _, _ => by
      rw [sectionCfnSlotLoop] at h
      cases h
      simp
  | (i, pm) :: rest, acc, ps', h, hdis, hnd => by
      simp only [List.map_cons, List.nodup_cons] at hnd
      obtain ⟨hnotin, hndrest⟩ := hnd
      rw [sectionCfnSlotLoop] at h
      cases hv : paramInitFromCfnValue pm (cfnValues.getD i "NONE") with
      | error e => rw [hv] at h; simp [error_bind] at h
      | ok v =>
          rw [hv, ok_bind] at h
          have hmem : pm.key ∉ acc.map Prod.fst := hdis pm.key (by simp)
          rw [addParam_notMem _ _ _ hmem] at h
          rw [cfnSlotLoop_keys cfnValues rest _ _ h
            (by
              intro k hk
              have h1 := hdis k (List.mem_cons_of_mem _ hk)
              have h2 : k ≠ pm.key := fun he => hnotin (he ▸ hk)
              simp [h1, h2]) hndrest]
          simp

theorem fileLoop_keys (smap : SectionMap) (sname : String) (cfg : ConfigFile) :
    ∀ (pms : List ParamMap) (acc ps' : List (String × PValue)),
    sectionFileLoop smap sname cfg pms acc = .ok ps' →
    (∀ k ∈ pms.map (fun pm => pm.key), k ∉ acc.map Prod.fst) →
    (pms.map (fun pm => pm.key)).Nodup →
    ps'.map Prod.fst = acc.map Prod.fst ++ pms.map (fun pm => pm.key)
  | [], acc, ps', h, _, _ => by
      rw [sectionFileLoop] at h
      cases h
      simp
  | pm :: rest, acc, ps', h, hdis, hnd => by
      simp only [List.map_cons, List.nodup_cons] at hnd
      obtain ⟨hnotin, hndrest⟩ := hnd
      rw [sectionFileLoop] at h
      cases hv : paramInitFromFile sname pm cfg with
      | error e => rw [hv] at h; simp [error_bind] at h
      | ok v =>
          rw [hv, ok_bind] at h
          by_cases hb : undeclaredKeys smap (fileItems cfg sname) ≠ []
          · rw [if_pos hb] at h
            simp at h
          · rw [if_neg hb] at h
            have hmem : pm.key ∉ acc.map Prod.fst := hdis pm.key (by simp)
            rw [addParam_notMem _ _ _ hmem] at h
            rw [fileLoop_keys smap sname cfg rest _ _ h
              (by
                intro k hk
                have h1 := hdis k (List.mem_cons_of_mem _ hk)
                have h2 : k ≠ pm.key := fun he => hnotin (he ▸ hk)
                simp [h1, h2]) hndrest]
            simp

/-- C10: a Section constructed from any of the three sources — defaults
(`_init_params_from_map`), deployment parameters
(`_init_params_from_cfn`, both the single-slot and per-parameter
variants), or the config file (`_init_params_from_file`) — holds
exactly one parameter entry per schema key, in schema order;
consequently `get_param` succeeds for every declared key. -/
theorem c10_section_params_complete (smap : SectionMap) (lbl : Option String) (m : CfnParams)
    (cfg : ConfigFile) (foa : Bool)
    (hnd : (smap.params.map (fun pm => pm.key)).Nodup) :
    ((sectionInitFromMap smap lbl).params.map Prod.fst
        = smap.params.map (fun pm => pm.key))
    ∧ (∀ sec, sectionInitFromCfn smap lbl m = .ok sec →
        sec.params.map Prod.fst = smap.params.map (fun pm => pm.key))
    ∧ (∀ sec, sectionInitFromFile smap lbl foa cfg = .ok sec →
        sec.params.map Prod.fst = smap.params.map (fun pm => pm.key))
    ∧ (∀ sec, (sec = sectionInitFromMap smap lbl
          ∨ sectionInitFromCfn smap lbl m = .ok sec
          ∨ sectionInitFromFile smap lbl foa cfg = .ok sec) →
        ∀ key ∈ smap.params.map (fun pm => pm.key), (sec.params.lookup key).isSome) := by
  have hmap : (sectionInitFromMap smap lbl).params.map Prod.fst
      = smap.params.map (fun pm => pm.key) := by
    rw [sectionInitFromMap]
    have := foldMap_keys smap.params [] (by simp) hnd
    simpa using this
  have hcfn : ∀ sec, sectionInitFromCfn smap lbl m = .ok sec →
      sec.params.map Prod.fst = smap.params.map (fun pm => pm.key) := by
    intro sec h
    rw [sectionInitFromCfn] at h
    have henum : smap.params.enum.map (fun p => p.2.key)
        = smap.params.map (fun pm => pm.key) := by
      rw [show (fun (p : Nat × ParamMap) => p.2.key)
          = (fun pm : ParamMap => pm.key) ∘ Prod.snd from rfl]
      rw [← List.map_map, List.enum_map_snd]
    cases hc : smap.cfn with
    | some conv =>
        simp only [hc] at h
        cases hl : sectionCfnSlotLoop (pySplit ',' (getCfnParam m conv)) smap.params.enum []
          with
        | error e => rw [hl] at h; simp [error_bind] at h
        | ok ps =>
            rw [hl, ok_bind] at h
            cases h
            have := cfnSlotLoop_keys (pySplit ',' (getCfnParam m conv)) smap.params.enum [] ps
              hl (by simp) (henum ▸ hnd)
            simpa [henum] using this
    | none =>
        simp only [hc] at h
        cases hl : sectionCfnParamsLoop m smap.params [] with
        | error e => rw [hl] at h; simp [error_bind] at h
        | ok ps =>
            rw [hl, ok_bind] at h
            cases h
            have := cfnParamsLoop_keys m smap.params [] ps hl (by simp) hnd
            simpa using this
  have hfile : ∀ sec, sectionInitFromFile smap lbl foa cfg = .ok sec →
      sec.params.map Prod.fst = smap.params.map (fun pm => pm.key) := by
    intro sec h
    rw [sectionInitFromFile] at h
    by_cases hh : hasSection cfg (fileSectionName smap.key (sectionLabelOf smap lbl))
    · rw [if_pos hh] at h
      cases hl : sectionFileLoop smap (fileSectionName smap.key (sectionLabelOf smap lbl))
          cfg smap.params [] with
      | error e => rw [hl] at h; simp [error_bind] at h
      | ok ps =>
          rw [hl, ok_bind] at h
          cases h
          have := fileLoop_keys smap _ cfg smap.params [] ps hl (by simp) hnd
          simpa using this
    · rw [if_neg hh] at h
      by_cases hf : foa
      · rw [if_pos hf] at h; simp at h
      · rw [if_neg hf] at h
        cases h
        exact hmap
  refine ⟨hmap, hcfn, hfile, ?_⟩
  intro sec hsec key hkey
  apply lookup_isSome_of_mem_keys
  rcases hsec with h | h | h
  · rw [h, hmap]; exact hkey
  · rw [hcfn sec h]; exact hkey
  · rw [hfile sec h]; exact hkey

/-- Witness for C10 at the EBS schema built from defaults. -/
theorem c10_witness :
    ((sectionInitFromMap EBS (some "vol1")).params.map Prod.fst
        = EBS.params.map (fun pm => pm.key))
    ∧ (((sectionInitFromMap EBS (some "vol1")).params.lookup "volume_size").isSome) :=
  ⟨(c10_section_params_complete EBS (some "vol1") [] ⟨[]⟩ false (by decide)).1,
   (c10_section_params_complete EBS (some "vol1") [] ⟨[]⟩ false (by decide)).2.2.2 _ (Or.inl rfl)
     "volume_size" (by decide)⟩

/-- Value a parameter receives from the file when its construction
succeeds. -/
def paramFileVal (sname : String) (pm : ParamMap) (cfg : ConfigFile) : PValue :=
  match paramInitFromFile sname pm cfg with
  | .ok v => v
  | .error _ => .none

theorem lookup_map_key (f : ParamMap → PValue) :
    ∀ (pms : List ParamMap) (pm : ParamMap),
    (pms.map (fun q => q.key)).Nodup → pm ∈ pms →
    (pms.map (fun q => (q.key, f q))).lookup pm.key = some (f pm)
  | [], pm, _, hmem => by simp at hmem
  | q :: rest, pm, hnd, hmem => by
      simp only [List.map_cons, List.nodup_cons] at hnd
      obtain ⟨hnotin, hndrest⟩ := hnd
      rcases List.mem_cons.mp hmem with h | h
      · subst h
        simp [List.lookup]
      · have hne : (pm.key == q.key) = false := by
          simp only [beq_eq_false_iff_ne, ne_eq]
          intro he
          exact hnotin (he ▸ List.mem_map_of_mem (fun r => r.key) h)
        simp only [List.map_cons, List.lookup, hne]
        exact lookup_map_key f rest pm hndrest h

theorem fileLoop_values (smap : SectionMap) (sname : String) (cfg : ConfigFile)
    (hbad : undeclaredKeys smap (fileItems cfg sname) = []) :
    ∀ (pms : List ParamMap) (acc : List (String × PValue)),
    (∀ pm ∈ pms, ∃ v, paramInitFromFile sname pm cfg = .ok v) →
    (∀ k ∈ pms.map (fun pm => pm.key), k ∉ acc.map Prod.fst) →
    (pms.map (fun pm => pm.key)).Nodup →
    sectionFileLoop smap sname cfg pms acc
      = .ok (acc ++ pms.map (fun pm => (pm.key, paramFileVal sname pm cfg)))
  | [], acc, _, _, _ => by simp [sectionFileLoop]
  | pm :: rest, acc, hok, hdis, hnd => by
      simp only [List.map_cons, List.nodup_cons] at hnd
      obtain ⟨hnotin, hndrest⟩ := hnd
      obtain ⟨v, hv⟩ := hok pm (List.mem_cons_self _ _)
      have hval : paramFileVal sname pm cfg = v := by rw [paramFileVal, hv]
      rw [sectionFileLoop, hv, ok_bind]
      have hmem : pm.key ∉ acc.map Prod.fst := hdis pm.key (by simp)
      rw [addParam_notMem _ _ _ hmem, if_neg (by simp [hbad])]
      rw [fileLoop_values smap sname cfg hbad rest
        (acc ++ [(pm.key, v)])
        (fun p hp => hok p (List.mem_cons_of_mem _ hp))
        (by
          intro k hk
          have h1 := hdis k (List.mem_cons_of_mem _ hk)
          have h2 : k ≠ pm.key := fun he => hnotin (he ▸ hk)
          simp [h1, h2]) hndrest]
      simp [hval]

theorem paramFileVal_missing (sname : String) (pm : ParamMap) (cfg : ConfigFile)
    (hlt : pm.ltype ≠ .availZone) (hget : fileGet cfg sname pm.key = Option.none) :
    paramFileVal sname pm cfg = initFromMapValue pm.ltype pm.dflt := by
  cases h : pm.ltype <;>
    simp_all [paramFileVal, paramInitFromFile, hget]

/-- C6 (amended): when a file block holds undeclared keys, decoding the
section raises exactly one fatal error listing all of them at once,
provided the first schema parameter initializes from the block without
its own fatal error (the undeclared-key check sits inside the parameter
loop, after the first parameter is built); a block with only declared
keys raises no such error, and missing keys fall back to the
per-parameter defaults (for every parameter that reads its own key,
i.e. every class except the internal availability-zone parameter). -/
theorem c6_undeclared_keys (smap : SectionMap) (lbl : Option String) (foa : Bool) (cfg : ConfigFile)
    (pm0 : ParamMap) (rest : List ParamMap) (v0 : PValue)
    (hpms : smap.params = pm0 :: rest)
    (hhas : hasSection cfg (fileSectionName smap.key (sectionLabelOf smap lbl)))
    (h0 : paramInitFromFile (fileSectionName smap.key (sectionLabelOf smap lbl)) pm0 cfg
      = .ok v0) :
    (undeclaredKeys smap
        (fileItems cfg (fileSectionName smap.key (sectionLabelOf smap lbl))) ≠ [] →
      sectionInitFromFile smap lbl foa cfg = .error
        (notAllowedMsg
          (undeclaredKeys smap
            (fileItems cfg (fileSectionName smap.key (sectionLabelOf smap lbl))))
          (fileSectionName smap.key (sectionLabelOf smap lbl))))
    ∧ (undeclaredKeys smap
        (fileItems cfg (fileSectionName smap.key (sectionLabelOf smap lbl))) = [] →
      (∀ pm ∈ smap.params, ∃ v,
        paramInitFromFile (fileSectionName smap.key (sectionLabelOf smap lbl)) pm cfg
          = .ok v) →
      (smap.params.map (fun pm => pm.key)).Nodup →
      ∃ sec, sectionInitFromFile smap lbl foa cfg = .ok sec ∧
        ∀ pm ∈ smap.params, pm.ltype ≠ .availZone →
          fileGet cfg (fileSectionName smap.key (sectionLabelOf smap lbl)) pm.key
            = Option.none →
          sec.params.lookup pm.key = some (initFromMapValue pm.ltype pm.dflt)) := by
  constructor
  · intro hbad
    rw [sectionInitFromFile, if_pos hhas, hpms, sectionFileLoop, h0, ok_bind,
      if_pos hbad]
    rfl
  · intro hbad hok hnd
    rw [sectionInitFromFile, if_pos hhas]
    rw [fileLoop_values smap _ cfg hbad smap.params [] hok (by simp) hnd]
    refine ⟨_, rfl, ?_⟩
    intro pm hmem hlt hget
    simp only [List.nil_append, ok_bind]
    rw [lookup_map_key _ smap.params pm hnd hmem]
    rw [paramFileVal_missing _ pm cfg hlt hget]

/-- C6 counterexample: a `[scaling default]` block holding both an
unparseable `scaledown_idletime` and the undeclared key `foo` aborts
with the Integer-coercion error of the first parameter — one fatal
error indeed, but its message does not list the undeclared key, against
the claim. -/
theorem c6_counterexample :
    undeclaredKeys SCALING (fileItems ⟨[("scaling default",
        [("scaledown_idletime", "abc"), ("foo", "1")])]⟩ "scaling default") = ["foo"]
    ∧ sectionInitFromFile SCALING Option.none false
        ⟨[("scaling default", [("scaledown_idletime", "abc"), ("foo", "1")])]⟩
      = .error "Configuration parameter 'scaledown_idletime' must be an Integer" := by
  decide

/-- Witness for C6 (amended): with a parseable first parameter the
undeclared key `foo` is reported by the all-at-once message. -/
theorem c6_witness :
    sectionInitFromFile SCALING Option.none false
        ⟨[("scaling default", [("scaledown_idletime", "5"), ("foo", "1")])]⟩
      = .error (notAllowedMsg ["foo"] "scaling default") :=
  (c6_undeclared_keys SCALING Option.none false
    ⟨[("scaling default", [("scaledown_idletime", "5"), ("foo", "1")])]⟩
    ⟨"scaledown_idletime", .intP, .int 10, some "ScaleDownIdleTime", .noRestriction⟩
    [] (.int 5) rfl (by decide) (by decide)).1 (by decide)

/-- Every `allowed_values` pattern in the schema compiles in the
pattern reader, so `reMatch` never falls back to the unparseable-pattern
branch on this program. -/
theorem schema_patterns_compile :
    ((SCALING.params ++ VPC.params ++ EBS.params ++ EFS.params ++ RAID.params
        ++ FSX.params).all fun pm =>
      match pm.allowed with
      | .re p => (parseRe p).isSome
      | _ => true)
    ∧ (CLUSTER.all fun pm =>
      match pm.allowed with
      | .re p => (parseRe p).isSome
      | _ => true) := by
  exact ⟨by decide, by decide⟩

/-- Behaviour of the fatal regex check inside the file loop: a `vpc_id`
that fails its pattern aborts `_init_from_file` with the invalid-value
message even when the block also holds an undeclared key, while a
matching `vpc_id` lets the undeclared-keys scan report that key. -/
theorem vpc_pattern_preempts_undeclared :
    sectionInitFromFile VPC Option.none false
        ⟨[("vpc default", [("vpc_id", "garbage"), ("foo", "1")])]⟩
      = .error ("The configuration parameter \x27vpc_id\x27 has an invalid value "
        ++ "\x27garbage\x27\nAllowed values are: ^vpc-[0-9a-z]\x7b8\x7d$|^vpc-[0-9a-z]\x7b17\x7d$")
    ∧ sectionInitFromFile VPC Option.none false
        ⟨[("vpc default", [("vpc_id", "vpc-12345678"), ("foo", "1")])]⟩
      = .error (notAllowedMsg ["foo"] "vpc default") := by
  exact ⟨by decide, by decide⟩

-- C9 helpers
theorem pyEq_none_iff (v : PValue) : pyEq v .none = true ↔ v = .none := by
  cases v <;> simp [pyEq]

theorem getDefaultValue_ne_none (lt : LeafType) (d : PValue) (h : d ≠ .none) :
    getDefaultValue lt d = d := by
  cases lt <;> simp [getDefaultValue, h]

theorem csSet_spec (st : ConfigState) (name key val : String) (h : name ∈ st.secs) :
    ∃ st', csSet st name key val = .ok st' ∧ st'.secs = st.secs := by
  rw [csSet, if_pos h]
  split <;> exact ⟨_, rfl, rfl⟩

/-- Value shapes for which `Param.to_file` cannot raise a Python-level
`TypeError`: list-typed parameters hold `None` or a policy-free list,
the shared-dir parameter holds text when it differs from its default. -/
def toFileSafe (pm : ParamMap) (v : PValue) : Bool :=
  match pm.ltype with
  | .commaSep =>
      match v with
      | .none => true
      | .list _ => true
      | _ => false
  | .addlIamPolicies =>
      match v with
      | .none => true
      | .list xs => !xs.contains awsBatchIamPolicy
      | _ => false
  | .sharedDir =>
      match v with
      | .str _ => true
      | _ => pyEq v (getDefaultValue pm.ltype pm.dflt)
  | _ => true

theorem cond_imp_ne_dflt (lt : LeafType) (d : PValue) (v : PValue)
    (hv : v ≠ .none) (hne : ¬pyEq v (getDefaultValue lt d) = true) :
    ¬pyEq v d = true := by
  by_cases hd : d = .none
  · subst hd
    intro hcontra
    exact hv ((pyEq_none_iff v).mp hcontra)
  · rw [getDefaultValue_ne_none lt d hd] at hne
    exact hne

theorem plainToFile_spec_comma (sname key : String) (lt : LeafType) (dflt : PValue)
    (xs : List String) (st : ConfigState)
    (hsec : ¬pyEq (PValue.list xs) dflt = true → sname ∈ st.secs) :
    ∃ st', (if PValue.list xs ≠ PValue.none
          && !pyEq (.list xs) (getDefaultValue lt dflt) then
        csSet st sname key (pyJoin "," xs)
      else Except.ok (csRemoveOption st sname key)) = .ok st' ∧ st'.secs = st.secs := by
  by_cases hc : (PValue.list xs ≠ PValue.none
      && !pyEq (.list xs) (getDefaultValue lt dflt)) = true
  · rw [if_pos hc]
    simp only [Bool.and_eq_true, ne_eq, decide_eq_true_eq, Bool.not_eq_true'] at hc
    have hne := cond_imp_ne_dflt lt dflt _ hc.1 (by simp [hc.2])
    exact csSet_spec st sname key _ (hsec hne)
  · rw [if_neg hc]
    exact ⟨_, rfl, rfl⟩

theorem plainToFile_spec (sname key : String) (lt : LeafType) (dflt : PValue)
    (v : PValue) (st : ConfigState)
    (hsec : ¬pyEq v dflt = true → sname ∈ st.secs) :
    ∃ st', (if v ≠ PValue.none && !pyEq v (getDefaultValue lt dflt) then
        csSet st sname key (pyStr v)
      else Except.ok (csRemoveOption st sname key)) = .ok st' ∧ st'.secs = st.secs := by
  by_cases hc : (v ≠ PValue.none && !pyEq v (getDefaultValue lt dflt)) = true
  · rw [if_pos hc]
    simp only [Bool.and_eq_true, ne_eq, decide_eq_true_eq, Bool.not_eq_true'] at hc
    have hne := cond_imp_ne_dflt lt dflt v hc.1 (by simp [hc.2])
    exact csSet_spec st sname key _ (hsec hne)
  · rw [if_neg hc]
    exact ⟨_, rfl, rfl⟩

theorem paramToFile_spec (sname : String) (pm : ParamMap) (v : PValue) (t : Tree)
    (st : ConfigState) (hsafe : toFileSafe pm v)
    (hsec : ¬pyEq v pm.dflt = true → sname ∈ st.secs) :
    ∃ st', paramToFile sname pm v t st = .ok st' ∧ st'.secs = st.secs := by
  obtain ⟨key, lt, dflt, cfn, allowed⟩ := pm
  simp only [toFileSafe] at hsafe
  simp only at hsec
  cases lt with
  | boolP =>
      simp only [paramToFile]
      by_cases hc : pyEq v dflt = true
      · rw [if_neg (by simp [hc])]
        exact ⟨_, rfl, rfl⟩
      · rw [if_pos (by simp [hc])]
        exact csSet_spec st sname key _ (hsec hc)
  | maintainInit =>
      simp only [paramToFile]
      by_cases hc : pyEq v dflt = true
      · rw [if_neg (by simp [hc])]
        exact ⟨_, rfl, rfl⟩
      · rw [if_pos (by simp [hc])]
        exact csSet_spec st sname key _ (hsec hc)
  | availZone =>
      simp only [paramToFile]
      exact ⟨st, rfl, rfl⟩
  | commaSep =>
      simp only [paramToFile, reduceIte, reduceCtorEq]
      match v, hsafe with
      | .none, _ => exact ⟨csRemoveOption st sname key, by simp, rfl⟩
      | .list xs, _ =>
          exact plainToFile_spec_comma sname key .commaSep dflt xs st hsec
  | addlIamPolicies =>
      simp only [paramToFile, reduceIte]
      match v, hsafe with
      | .none, _ =>
          simp only [dropAwsBatchPolicy]
          exact ⟨csRemoveOption st sname key, by simp, rfl⟩
      | .list xs, hsafe =>
          simp only [toFileSafe] at hsafe
          simp at hsafe
          have hdrop : dropAwsBatchPolicy (.list xs) = .list xs := by
            rw [dropAwsBatchPolicy]
            rw [List.erase_of_not_mem (by simpa using hsafe)]
          rw [hdrop]
          exact plainToFile_spec_comma sname key .addlIamPolicies dflt xs st hsec
  | sharedDir =>
      simp only [paramToFile]
      by_cases hc : ((getSectionByKey t "ebs").isNone
          && !pyEq v (getDefaultValue .sharedDir dflt)) = true
      · rw [if_pos hc]
        simp only [Bool.and_eq_true, Bool.not_eq_true'] at hc
        match v, hsafe with
        | .str s, _ =>
            have hne : ¬pyEq (PValue.str s) dflt = true :=
              cond_imp_ne_dflt .sharedDir dflt _ (by simp) (by simp [hc.2])
            exact csSet_spec st sname key _ (hsec hne)
        | .none, hsafe => simp at hsafe; simp [hsafe] at hc
        | .int n, hsafe => simp at hsafe; simp [hsafe] at hc
        | .float d, hsafe => simp at hsafe; simp [hsafe] at hc
        | .bool b, hsafe => simp at hsafe; simp [hsafe] at hc
        | .list xs, hsafe => simp at hsafe; simp [hsafe] at hc
        | .dict es, hsafe => simp at hsafe; simp [hsafe] at hc
      · rw [if_neg hc]
        exact ⟨st, rfl, rfl⟩
  | plain => simp only [paramToFile]; exact plainToFile_spec sname key _ dflt v st hsec
  | intP => simp only [paramToFile]; exact plainToFile_spec sname key _ dflt v st hsec
  | floatP => simp only [paramToFile]; exact plainToFile_spec sname key _ dflt v st hsec
  | jsonP => simp only [paramToFile]; exact plainToFile_spec sname key _ dflt v st hsec
  | spotPrice => simp only [paramToFile]; exact plainToFile_spec sname key _ dflt v st hsec
  | spotBid => simp only [paramToFile]; exact plainToFile_spec sname key _ dflt v st hsec
  | desiredSize => simp only [paramToFile]; exact plainToFile_spec sname key _ dflt v st hsec
  | maxSize => simp only [paramToFile]; exact plainToFile_spec sname key _ dflt v st hsec
  | minSize => simp only [paramToFile]; exact plainToFile_spec sname key _ dflt v st hsec

theorem csAddSection_self (st : ConfigState) (name : String) :
    name ∈ (csAddSection st name).secs := by
  rw [csAddSection]
  split
  · assumption
  · simp

theorem csAddSection_mono (st : ConfigState) (name x : String) (h : x ∈ st.secs) :
    x ∈ (csAddSection st name).secs := by
  rw [csAddSection]
  split
  · exact h
  · simp [h]

theorem sectionToFileLoop_spec (sname : String) (sec : SectionI) (t : Tree) :
    ∀ (pms : List ParamMap) (created : Bool) (st : ConfigState),
    (∀ pm ∈ pms, ∃ v, sec.params.lookup pm.key = some v ∧ toFileSafe pm v) →
    (created = true → sname ∈ st.secs) →
    ∃ st', sectionToFileLoop sname sec t pms created st = .ok st' ∧
      ((sname ∈ st'.secs ↔ sname ∈ st.secs
        ∨ ∃ pm ∈ pms, ∃ v, sec.params.lookup pm.key = some v ∧ ¬pyEq v pm.dflt = true)
      ∧ (∀ x ∈ st.secs, x ∈ st'.secs))
  | [], created, st, _, _ => by
      refine ⟨st, by rw [sectionToFileLoop], ?_, fun x hx => hx⟩
      simp
  | pm :: rest, created, st, hsafe, hinv => by
      obtain ⟨v, hv, hsf⟩ := hsafe pm (List.mem_cons_self _ _)
      rw [sectionToFileLoop]
      simp only [getParamE, hv, ok_bind]
      by_cases hd : pyEq v pm.dflt = true
      · rw [show (if !created && !pyEq v pm.dflt then (true, csAddSection st sname)
            else (created, st)) = (created, st) from by simp [hd]]
        obtain ⟨st1, hst1, hsecs1⟩ := paramToFile_spec sname pm v t st hsf
          (fun hcon => absurd hd hcon)
        rw [hst1, ok_bind]
        obtain ⟨st', h, hiff, hmono⟩ := sectionToFileLoop_spec sname sec t rest created st1
          (fun p hp => hsafe p (List.mem_cons_of_mem _ hp))
          (fun hc => hsecs1 ▸ hinv hc)
        refine ⟨st', h, ?_, fun x hx => hmono x (hsecs1 ▸ hx)⟩
        rw [hiff, hsecs1]
        constructor
        · rintro (hin | ⟨pm', hpm', v', hv', hne⟩)
          · exact Or.inl hin
          · exact Or.inr ⟨pm', List.mem_cons_of_mem _ hpm', v', hv', hne⟩
        · rintro (hin | ⟨pm', hpm', v', hv', hne⟩)
          · exact Or.inl hin
          · rcases List.mem_cons.mp hpm' with heq | hmem
            · subst heq
              rw [hv] at hv'
              cases hv'
              exact absurd hd hne
            · exact Or.inr ⟨pm', hmem, v', hv', hne⟩
      · by_cases hcr : created = true
        · rw [show (if !created && !pyEq v pm.dflt then (true, csAddSection st sname)
              else (created, st)) = (created, st) from by simp [hcr]]
          obtain ⟨st1, hst1, hsecs1⟩ := paramToFile_spec sname pm v t st hsf
            (fun _ => hinv hcr)
          rw [hst1, ok_bind]
          obtain ⟨st', h, hiff, hmono⟩ := sectionToFileLoop_spec sname sec t rest created st1
            (fun p hp => hsafe p (List.mem_cons_of_mem _ hp))
            (fun hc => hsecs1 ▸ hinv hc)
          refine ⟨st', h, ?_, fun x hx => hmono x (hsecs1 ▸ hx)⟩
          rw [hiff, hsecs1]
          have hmem := hinv hcr
          simp [hmem]
        · have hcond : (if !created && !pyEq v pm.dflt then (true, csAddSection st sname)
              else (created, st)) = (true, csAddSection st sname) := by
            have h1 : created = false := by
              cases created
              · rfl
              · exact absurd rfl hcr
            simp [h1, hd]
          rw [hcond]
          have haddself := csAddSection_self st sname
          obtain ⟨st1, hst1, hsecs1⟩ := paramToFile_spec sname pm v t
            (csAddSection st sname) hsf (fun _ => haddself)
          rw [hst1, ok_bind]
          obtain ⟨st', h, hiff, hmono⟩ := sectionToFileLoop_spec sname sec t rest true st1
            (fun p hp => hsafe p (List.mem_cons_of_mem _ hp))
            (fun _ => hsecs1 ▸ haddself)
          refine ⟨st', h, ?_, fun x hx => hmono x (hsecs1 ▸ csAddSection_mono st sname x hx)⟩
          rw [hiff, hsecs1]
          have hlhs : sname ∈ (csAddSection st sname).secs := haddself
          simp only [hlhs, true_or, true_iff]
          exact Or.inr ⟨pm, List.mem_cons_self _ _, v, hv, hd⟩

/-- C9 (amended): `Section.to_file` writes the block header exactly
when some contained parameter value differs (by Python `!=`) from the
raw map default `param_map.get("default", None)` — not from the typed
`get_default_value()`; for list- or JSON-typed parameters without an
explicit map default the two notions disagree, which is what makes the
original claim fail (see the counterexample). -/
theorem c9_amended_header_rule (smap : SectionMap) (sec : SectionI) (t : Tree) (st0 : ConfigState)
    (hsafe : ∀ pm ∈ smap.params, ∃ v, sec.params.lookup pm.key = some v ∧ toFileSafe pm v) :
    ∃ st', sectionToFile smap sec t st0 = .ok st' ∧
      (fileSectionName smap.key sec.label ∈ st'.secs ↔
        fileSectionName smap.key sec.label ∈ st0.secs
        ∨ ∃ pm ∈ smap.params, ∃ v, sec.params.lookup pm.key = some v
            ∧ ¬pyEq v pm.dflt = true) := by
  obtain ⟨st', h, hiff, _⟩ := sectionToFileLoop_spec (fileSectionName smap.key sec.label)
    sec t smap.params false st0 hsafe (by simp)
  exact ⟨st', h, hiff⟩

/-- Witness for C9 (amended) at a scaling section holding a non-default
value. -/
theorem c9_witness :
    ∃ st', sectionToFile SCALING ⟨"scaling", "default", [("scaledown_idletime", .int 5)]⟩
        [] emptyConfig = .ok st' ∧
      (fileSectionName SCALING.key "default" ∈ st'.secs ↔
        fileSectionName SCALING.key "default" ∈ emptyConfig.secs
        ∨ ∃ pm ∈ SCALING.params, ∃ v,
            (SectionI.mk "scaling" "default" [("scaledown_idletime", .int 5)]).params.lookup
              pm.key = some v ∧ ¬pyEq v pm.dflt = true) :=
  c9_amended_header_rule SCALING ⟨"scaling", "default", [("scaledown_idletime", .int 5)]⟩ []
    emptyConfig (by
      intro pm hpm
      simp only [SCALING, List.mem_singleton] at hpm
      subst hpm
      exact ⟨.int 5, rfl, by decide⟩)

-- C7 defs and theorem
/-- Config tree built entirely from schema defaults: the cluster
section and the auto-materialized scaling and vpc sections. -/
def defaultsBuild : Except String (SectionI × Tree) := clusterInitFromMap []

/-- File encoding of the all-defaults tree (cluster section included in
the tree for the shared-dir lookup). -/
def defaultsEncoded : Except String ConfigState :=
  defaultsBuild.bind (fun p => clusterToFile p.1 (addSectionT p.2 p.1) emptyConfig)

set_option maxHeartbeats 4000000 in
set_option maxRecDepth 10000 in
/-- C7: round trip at defaults — building the cluster tree entirely
from schema defaults and encoding it to file form yields a file state
with no parameter entries (a single empty `[cluster default]` header);
decoding that file form back rebuilds exactly the all-defaults tree. -/
theorem c7_default_round_trip :
    defaultsEncoded = .ok ⟨["cluster default"], []⟩
    ∧ (defaultsEncoded.bind (fun st => clusterInitFromFile (stateToFile st) [] false))
        = defaultsBuild := by decide

set_option maxHeartbeats 4000000 in
set_option maxRecDepth 10000 in
/-- C9 counterexample: in the all-defaults cluster section every
parameter equals its typed schema default (`get_default_value()`), yet
encoding writes the `[cluster default]` block header (with zero
entries), because `additional_iam_policies`/`extra_json`/`tags` hold
`[]`/`{}` while their raw map default is `None`. -/
theorem c9_counterexample :
    (defaultsBuild.map (fun p => CLUSTER.all (fun cp =>
      match p.1.params.lookup cp.key with
      | some v => pyEq v (match cp.kind with
          | .leaf lt => getDefaultValue lt cp.dflt
          | _ => cp.dflt)
      | Option.none => false))) = .ok true
    ∧ defaultsEncoded = .ok ⟨["cluster default"], []⟩ := by decide

end CfnCluster
